import Mathlib

/-!
# Multi-tenant schema provisioning: a shallow embedding

This file embeds the tenant provisioning / migration / session core of the
backend (`app/config/database.py`, the tenant-session dependency in
`app/api/endpoints/token.py`, and the registration endpoint in
`app/api/endpoints/user.py`) as executable Lean definitions over an explicit
database state, and proves or refutes the specified properties.

Modelling conventions:
* The relational state is an association list of schemas; each schema holds an
  association list of tables and one of sequences.  A table carries its row
  ids, the default of its auto-increment column, and flags recording whether
  constraints and indexes were copied (`LIKE ... INCLUDING ...`).
* The embedded functions model the PostgreSQL branch of the source
  (`is_sqlite = False`); the multitenant functions are documented in the
  source as PostgreSQL-only and return early on SQLite.
* Catalog queries (`information_schema`) are reads of this state.  The
  `ORDER BY table_name` of the catalog queries is modelled as the enumeration
  order of the catalog; no claim depends on the order of the returned list.
* `try/except` blocks that log and re-raise are modelled with `Except`;
  blocks that log and continue are modelled by returning the state unchanged.
  Statement failures that the source can actually hit (a failing seed insert,
  a failing catalog query) are injected through a `Fail` record of flags; the
  no-failure execution is `noFail`.
-/

deriving instance DecidableEq for Except

/-- The default expression of a table's auto-increment (serial) column, as
`information_schema.columns.column_default` exposes it: absent, a
`nextval` on a template-owned (public) sequence, or a `nextval` on a
tenant-scoped sequence. -/
inductive ColDefault where
  | noDefault : ColDefault
  | nextvalPublic : String → ColDefault
  | nextvalTenant : String → String → ColDefault
deriving DecidableEq, Repr

/-- A relational table: its rows (identified by their id column), the default
of the id column, and whether constraints / indexes were copied onto it. -/
structure Table where
  rows : List Nat
  idDefault : ColDefault
  hasConstraints : Bool
  hasIndexes : Bool
deriving DecidableEq, Repr

/-- One database namespace: its tables and its sequences (name to last value;
`nextval` returns the successor and stores it). -/
structure Schema where
  tables : List (String × Table)
  seqs : List (String × Nat)
deriving DecidableEq, Repr

/-- The whole catalog: schema name to schema. -/
abbrev DB := List (String × Schema)

/-- Failure-injection flags for the statements the source guards with
`try/except`: the catalog query of `get_all_tables_except_user`, and the
four template seed inserts. `noFail` is the normal execution. -/
structure Fail where
  catalog : Bool
  header : Bool
  contact : Bool
  company : Bool
  carrousel : Bool
deriving DecidableEq, Repr

/-- The no-failure execution: every statement succeeds. -/
def noFail : Fail := ⟨false, false, false, false, false⟩

/-! ## Association-list primitives -/

/-- Replace the binding of `k` (first occurrence) or append it. -/
def setEntry {β : Type} (k : String) (v : β) : List (String × β) → List (String × β)
  | [] => [(k, v)]
  | (k', v') :: rest => if k = k' then (k, v) :: rest else (k', v') :: setEntry k v rest

/-- `EXISTS (SELECT FROM information_schema.schemata WHERE schema_name = s)`. -/
def schemaExists (db : DB) (s : String) : Bool := (db.lookup s).isSome

/-- Apply `f` to schema `s` if it exists; SQL touching a missing schema errors,
which the callers below catch and skip, so the state is unchanged. -/
def modifySchema (db : DB) (s : String) (f : Schema → Schema) : DB :=
  match db.lookup s with
  | none => db
  | some sc => setEntry s (f sc) db

/-- Look up table `t` of schema `s`. -/
def getTable (db : DB) (s t : String) : Option Table :=
  (db.lookup s).bind fun sc => sc.tables.lookup t

/-- `SELECT COUNT(*) FROM s.t`; `none` when the table is missing (the
statement raises). -/
def countRows (db : DB) (s t : String) : Option Nat :=
  (getTable db s t).map fun tb => tb.rows.length

/-- Create or replace table `t` in schema `s` (no-op on a missing schema,
where the DDL would raise). -/
def setTable (db : DB) (s t : String) (tb : Table) : DB :=
  modifySchema db s fun sc => { sc with tables := setEntry t tb sc.tables }

/-- Apply `f` to table `t` of schema `s` if present (`ALTER TABLE` /
`UPDATE` target). -/
def modifyTable (db : DB) (s t : String) (f : Table → Table) : DB :=
  modifySchema db s fun sc =>
    match sc.tables.lookup t with
    | none => sc
    | some tb => { sc with tables := setEntry t (f tb) sc.tables }

/-- Current value of sequence `q` of schema `s`. -/
def getSeq (db : DB) (s q : String) : Option Nat :=
  (db.lookup s).bind fun sc => sc.seqs.lookup q

/-- `setval(s.q, v)` (also used for `CREATE SEQUENCE`'s initial state). -/
def setSeq (db : DB) (s q : String) (v : Nat) : DB :=
  modifySchema db s fun sc => { sc with seqs := setEntry q v sc.seqs }

/-- `CREATE SEQUENCE IF NOT EXISTS s.q`: a fresh sequence yields 1 first. -/
def createSeqIfNotExists (db : DB) (s q : String) : DB :=
  if (getSeq db s q).isSome then db else setSeq db s q 0

/-- `CREATE SCHEMA IF NOT EXISTS s`. -/
def createSchemaIfNotExists (db : DB) (s : String) : DB :=
  if schemaExists db s then db else setEntry s ⟨[], []⟩ db

/-- `nextval` on the sequence a column default references: returns the drawn
id and the advanced state; `none` when the column has no default (an
`INSERT` relying on it would not draw an id). -/
def nextvalFor (db : DB) (d : ColDefault) : Option (Nat × DB) :=
  match d with
  | .noDefault => none
  | .nextvalPublic q =>
      let v := (getSeq db "public" q).getD 0 + 1
      some (v, setSeq db "public" q v)
  | .nextvalTenant sch q =>
      let v := (getSeq db sch q).getD 0 + 1
      some (v, setSeq db sch q v)

/-- `INSERT INTO s.t (...) VALUES (...)` with the id column left to its
default: draws the id from the default's sequence and appends the row. -/
def insertRowDefault (db : DB) (s t : String) : DB :=
  match getTable db s t with
  | none => db
  | some tb =>
      match nextvalFor db tb.idDefault with
      | none => db
      | some (v, db1) => modifyTable db1 s t fun tb' => { tb' with rows := tb'.rows ++ [v] }

/-- `n` consecutive default-id inserts into `s.t` (the seed loops). -/
def insertRowsN (s t : String) : Nat → DB → DB
  | 0, db => db
  | n + 1, db => insertRowDefault (insertRowsN s t n db) s t

/-! ## `app/config/database.py`: multitenant functions (PostgreSQL branch) -/

/-- Python `str.strip()`: drop leading and trailing whitespace. -/
def pyStrip (s : String) : String :=
  ⟨(((s.data.dropWhile Char.isWhitespace).reverse).dropWhile Char.isWhitespace).reverse⟩

/-- Python `str.lower()` on the ASCII names at hand. -/
def pyLower (s : String) : String := ⟨s.data.map Char.toLower⟩

/-- `validate_schema_name` (database.py:617): accepts exactly the names
matching `^[a-zA-Z0-9_]{1,50}$` (characters checked over the string's
character list). -/
def validate_schema_name (schema_name : String) : Bool :=
  1 ≤ schema_name.data.length && schema_name.data.length ≤ 50 &&
    schema_name.data.all fun c => c.isAlphanum || c = '_'

/-- The tables never copied per tenant (database.py:635,645). -/
def excludedTables : List String := ["user2", "active_sessions", "google_calendar_tokens"]

/-- The four seed entities of `create_tenant_initial_data` (database.py:760). -/
def seedTables : List String := ["header", "contact", "company", "carrousel"]

/-- `get_all_tables_except_user` (database.py:626): all base tables of the
template schema except the exclusion list; on a failing catalog query the
exception is caught and the empty list returned.  The query's
`ORDER BY table_name` is modelled as the catalog's enumeration order. -/
def get_all_tables_except_user (f : Fail) (db : DB) : List String :=
  if f.catalog then []
  else
    (((db.lookup "public").map fun sc => sc.tables.map Prod.fst).getD []).filter
      fun n => !(excludedTables.contains n)

/-- The table names of a tenant schema (the catalog query at
database.py:971). -/
def tenantTableNames (db : DB) (client : String) : List String :=
  ((db.lookup client).map fun sc => sc.tables.map Prod.fst).getD []

/-- `CREATE TABLE IF NOT EXISTS client.t (LIKE public.t ...)`: structure copy
with no rows.  `includeAll` distinguishes `INCLUDING ALL` (which also copies
the column defaults) from `INCLUDING CONSTRAINTS INCLUDING INDEXES` (which
does not).  Missing template table or missing tenant schema: the statement
raises and the callers skip (state unchanged). -/
def createTableLike (db : DB) (client t : String) (includeAll : Bool) : DB :=
  match getTable db "public" t with
  | none => db
  | some pt =>
      match getTable db client t with
      | some _ => db
      | none =>
          setTable db client t
            { rows := []
              idDefault := if includeAll then pt.idDefault else .noDefault
              hasConstraints := pt.hasConstraints
              hasIndexes := pt.hasIndexes }

/-- `create_tenant_sequences` (database.py:713): for the serial column of the
template table, create a tenant-scoped sequence named after the template one
and re-point the tenant column's default to it. -/
def create_tenant_sequences (db : DB) (client t : String) : DB :=
  match getTable db "public" t with
  | none => db
  | some pt =>
      match pt.idDefault with
      | .noDefault => db
      | .nextvalPublic q =>
          modifyTable (createSeqIfNotExists db client q) client t
            fun tb => { tb with idDefault := .nextvalTenant client q }
      | .nextvalTenant _ q =>
          modifyTable (createSeqIfNotExists db client q) client t
            fun tb => { tb with idDefault := .nextvalTenant client q }

/-- `update_tenant_sequences` (database.py:888): `setval` the sequence that
the tenant column's default references to the current maximum id
(`COALESCE(MAX(id), 0)`). -/
def maxId (rows : List Nat) : Nat := rows.foldr max 0

/-- See `maxId`; this is the body of `update_tenant_sequences`. -/
def update_tenant_sequences (db : DB) (client t : String) : DB :=
  match getTable db client t with
  | none => db
  | some tb =>
      match tb.idDefault with
      | .noDefault => db
      | .nextvalPublic q => setSeq db "public" q (maxId tb.rows)
      | .nextvalTenant sch q => setSeq db sch q (maxId tb.rows)

/-- `INSERT INTO client.t SELECT * FROM public.t` (database.py:869): rows are
copied verbatim, ids included. -/
def copyRows (db : DB) (client t : String) : DB :=
  match getTable db "public" t with
  | none => db
  | some pt => modifyTable db client t fun tb => { tb with rows := tb.rows ++ pt.rows }

/-- `create_initial_header` (database.py:457): if the template header table is
empty, insert the one starter row; a failing count or insert raises. -/
def create_initial_header (f : Fail) (db : DB) : Except String DB :=
  match countRows db "public" "header" with
  | none => .error "header count failed"
  | some k =>
      if k = 0 then
        if f.header then .error "header insert failed"
        else .ok (insertRowsN "public" "header" 1 db)
      else .ok db

/-- `create_initial_contact` (database.py:490): one starter row. -/
def create_initial_contact (f : Fail) (db : DB) : Except String DB :=
  match countRows db "public" "contact" with
  | none => .error "contact count failed"
  | some k =>
      if k = 0 then
        if f.contact then .error "contact insert failed"
        else .ok (insertRowsN "public" "contact" 1 db)
      else .ok db

/-- `create_initial_company` (database.py:531): three starter rows. -/
def create_initial_company (f : Fail) (db : DB) : Except String DB :=
  match countRows db "public" "company" with
  | none => .error "company count failed"
  | some k =>
      if k = 0 then
        if f.company then .error "company insert failed"
        else .ok (insertRowsN "public" "company" 3 db)
      else .ok db

/-- `create_initial_carrousels` (database.py:571): five starter rows. -/
def create_initial_carrousels (f : Fail) (db : DB) : Except String DB :=
  match countRows db "public" "carrousel" with
  | none => .error "carrousel count failed"
  | some k =>
      if k = 0 then
        if f.carrousel then .error "carrousel insert failed"
        else .ok (insertRowsN "public" "carrousel" 5 db)
      else .ok db

/-- `create_public_initial_data` (database.py:280): run the four seeders in
order; each seeder logs and RE-RAISES on failure, and the wrapper re-raises
too, so the first failure stops the remaining seeders.  Returns the state
reached (earlier seeders commit independently) and whether the call
completed without raising. -/
def create_public_initial_data (f : Fail) (db : DB) : DB × Bool :=
  match create_initial_header f db with
  | .error _ => (db, false)
  | .ok db1 =>
      match create_initial_contact f db1 with
      | .error _ => (db1, false)
      | .ok db2 =>
          match create_initial_company f db2 with
          | .error _ => (db2, false)
          | .ok db3 =>
              match create_initial_carrousels f db3 with
              | .error _ => (db3, false)
              | .ok db4 => (db4, true)

/-- The `if table_name == ... : create_initial_...` dispatch inside
`create_tenant_initial_data` (database.py:828). -/
def seedPublicEntity (f : Fail) (db : DB) (t : String) : Except String DB :=
  if t = "header" then create_initial_header f db
  else if t = "contact" then create_initial_contact f db
  else if t = "company" then create_initial_company f db
  else if t = "carrousel" then create_initial_carrousels f db
  else .ok db

/-- One iteration of the table loop of `create_tenant_initial_data`
(database.py:821): count the template rows; lazily seed the template if
empty; create the tenant table with `LIKE ... INCLUDING ALL` if missing;
skip a tenant table that already has rows; otherwise copy all template rows
and advance the tenant's sequence.  Any raise is caught and the loop
continues with the state already committed. -/
def tenantSeedStep (f : Fail) (client : String) (db : DB) (t : String) : DB :=
  match countRows db "public" t with
  | none => db
  | some pc0 =>
      let seeded : Option DB :=
        if pc0 = 0 then
          match seedPublicEntity f db t with
          | .error _ => none
          | .ok db1 => some db1
        else some db
      match seeded with
      | none => db
      | some db1 =>
          let pc := (countRows db1 "public" t).getD 0
          let db2 := if (getTable db1 client t).isSome then db1
                     else createTableLike db1 client t true
          match countRows db2 client t with
          | none => db2
          | some tc =>
              if tc > 0 then db2
              else if pc > 0 then
                update_tenant_sequences (copyRows db2 client t) client t
              else db2

/-- The tenant-side tail of `tenantSeedStep` (everything after the lazy
template seeding), factored out for the proofs below: ensure the tenant
table exists, skip it if it already has rows, otherwise copy the template
rows and advance the sequence when the template has rows. -/
def tenantSeedTail (c t : String) (db1 : DB) : DB :=
  let pc := (countRows db1 "public" t).getD 0
  let db2 := if (getTable db1 c t).isSome then db1 else createTableLike db1 c t true
  match countRows db2 c t with
  | none => db2
  | some tc =>
      if tc > 0 then db2
      else if pc > 0 then update_tenant_sequences (copyRows db2 c t) c t
      else db2

/-- `create_tenant_initial_data` (database.py:746): validate the name, then
run the seed step over the four seed tables. -/
def create_tenant_initial_data (f : Fail) (client : String) (db : DB) : Except String DB :=
  if !(validate_schema_name client) then .error ("Nombre de esquema invalido: " ++ client)
  else .ok (seedTables.foldl (tenantSeedStep f client) db)

/-- The per-table creation step of the provisioner's loop
(database.py:687-702): `LIKE public.t INCLUDING CONSTRAINTS INCLUDING
INDEXES` — defaults deliberately not copied — followed by
`create_tenant_sequences`. -/
def provisionTableStep (client : String) (db : DB) (t : String) : DB :=
  create_tenant_sequences (createTableLike db client t false) client t

/-- The per-table creation step of the reconciler's missing-table loop
(database.py:988-996): `LIKE public.t INCLUDING ALL` — column defaults
copied as they stand in the template — and no sequence call. -/
def reconcileTableStep (client : String) (db : DB) (t : String) : DB :=
  createTableLike db client t true

/-- The body shared by `migrate_existing_tenant_schema`'s existing-schema
branch (database.py:969): diff the template tables against the tenant's,
create the missing ones with `LIKE ... INCLUDING ALL` (best effort), then
always re-run the seed-data copy. -/
def migrateCore (f : Fail) (client : String) (db : DB) : Except String DB :=
  let publicTables := get_all_tables_except_user f db
  let existing := tenantTableNames db client
  let missing := publicTables.filter fun t => !(existing.contains t)
  if missing.isEmpty then create_tenant_initial_data f client db
  else
    create_tenant_initial_data f client
      (missing.foldl (reconcileTableStep client) db)

/-- `create_tenant_schema` (database.py:654): validate, delegate to the
migration path when the schema already exists, otherwise create the schema,
copy every template table's structure (constraints and indexes, no
defaults) with a tenant-scoped sequence each, and seed.  An empty template
table list is a logged warning and an early successful return. -/
def create_tenant_schema (f : Fail) (client : String) (db : DB) : Except String DB :=
  if !(validate_schema_name client) then .error ("Nombre de esquema invalido: " ++ client)
  else if schemaExists db client then migrateCore f client db
  else
    let db1 := createSchemaIfNotExists db client
    let tables := get_all_tables_except_user f db1
    if tables.isEmpty then .ok db1
    else
      create_tenant_initial_data f client (tables.foldl (provisionTableStep client) db1)

/-- `migrate_existing_tenant_schema` (database.py:945): validate, self-heal a
missing schema by provisioning, otherwise run the migration body. -/
def migrate_existing_tenant_schema (f : Fail) (client : String) (db : DB) : Except String DB :=
  if !(validate_schema_name client) then .error ("Nombre de esquema invalido: " ++ client)
  else if !(schemaExists db client) then create_tenant_schema f client db
  else migrateCore f client db

/-- `setup_new_tenant` (database.py:1043): empty / blank client is a `False`
result; otherwise lower-case the trimmed name, provision or migrate, and
report success as a boolean (exceptions become `False` with the original
state, the transaction having rolled back). -/
def setup_new_tenant (f : Fail) (client : String) (db : DB) : Bool × DB :=
  if pyStrip client = "" then (false, db)
  else
    let c := pyLower (pyStrip client)
    match (if schemaExists db c then migrate_existing_tenant_schema f c db
           else create_tenant_schema f c db) with
    | .ok d => (true, d)
    | .error _ => (false, db)

/-! ## Tenant-scoped sessions -/

/-- The scoped handle a tenant session yields: the active search path of the
connection for the request's duration. -/
structure TenantSession where
  searchPath : List String
deriving DecidableEq, Repr

/-- A FastAPI `HTTPException`. -/
structure HttpError where
  status : Nat
  detail : String
deriving DecidableEq, Repr

/-- Resolution of an unqualified table name under a search path: the first
schema on the path that has the table (missing schemas on the path are
silently skipped by PostgreSQL). -/
def resolveTable (db : DB) (path : List String) (t : String) : Option String :=
  match path with
  | [] => none
  | s :: rest =>
      match getTable db s t with
      | some _ => some s
      | none => resolveTable db rest t

/-- `get_tenant_db` (database.py:927): validate the schema name (raising
`ValueError` before any session is opened), then open a session with
`SET search_path TO client, public` and yield it — with NO check that the
schema exists.  The second component is the list of SQL statements the
generator has sent when it yields or raises. -/
def get_tenant_db (client : String) (db : DB) : Except String TenantSession × List String :=
  if !(validate_schema_name client) then
    (.error ("Nombre de esquema invalido: " ++ client), [])
  else
    (.ok ⟨[client, "public"]⟩, ["SET search_path TO " ++ client ++ ", public"])

/-- `get_tenant_session` (token.py:359): reject only an empty / blank client
name (HTTP 400), then send `SET search_path TO {client_name}, public` —
the client name interpolated into the statement with no naming-safety
check — then query whether the schema exists and raise HTTP 404 if not,
else yield.  The second component is the list of SQL statements sent up to
the yield or the raise (the `finally` restore included on the raise path). -/
def get_tenant_session (client : String) (db : DB) : Except HttpError TenantSession × List String :=
  if pyStrip client = "" then (.error ⟨400, "Nombre de cliente invalido"⟩, [])
  else
    let setPath := "SET search_path TO " ++ client ++ ", public"
    let checkExists := "SELECT EXISTS schemata WHERE schema_name = :schema_name"
    if schemaExists db client then
      (.ok ⟨[client, "public"]⟩, [setPath, checkExists])
    else
      (.error ⟨404, "Esquema para cliente " ++ client ++ " no encontrado"⟩,
        [setPath, checkExists, "SET search_path TO public"])

/-! ## `app/api/endpoints/user.py`: the registration endpoint -/

/-- The request body of `POST /user/`. -/
structure UserCreateRequest where
  email : String
  password : String
  full_name : String
  client : String
deriving DecidableEq, Repr

/-- The responses `create_user` can produce. -/
inductive RegistrationResponse where
  | created : String → String → String → String → RegistrationResponse
  | badRequest : String → RegistrationResponse
deriving DecidableEq, Repr

/-- `create_user` (user.py:42): reject a duplicate email; then call
`create_tenant_schema` inside a `try/except` whose handler only logs a
warning — the provisioning outcome is discarded; then create the user row
and return the fixed success message.  Returns the response and the
resulting state. -/
def create_user (req : UserCreateRequest) (emailExists : Bool) (f : Fail) (db : DB) :
    RegistrationResponse × DB :=
  if emailExists then (.badRequest "El email ya esta registrado", db)
  else
    let db1 := match create_tenant_schema f req.client db with
               | .ok d => d
               | .error _ => db
    (.created "Usuario creado exitosamente" req.email req.full_name req.client, db1)

/-! ## Invariants and concrete states used by the theorems -/

/-- The tables of schema `s` (the observation the isolation claims are
about: row counts and values live here, sequences do not). -/
def tablesOf (db : DB) (s : String) : Option (List (String × Table)) :=
  (db.lookup s).map fun sc => sc.tables

/-- The table names of schema `s` (what the catalog's table-listing queries
return; `tenantTableNames db c = schemaKeys db c` definitionally). -/
def schemaKeys (db : DB) (s : String) : List String :=
  ((db.lookup s).map fun sc => sc.tables.map Prod.fst).getD []

/-- The exact observations on which one seed-table iteration of
`create_tenant_initial_data` decides to change nothing: the template table
is missing (the count raises and the loop skips); or the template table has
rows and either the tenant schema is missing (tenant-side DDL raises) or
the tenant table already has rows (the copy is skipped); or the template
table is empty with no id default (the lazy seed insert draws no id and
inserts nothing) and the tenant side needs no creation. -/
def stepNoop (c t : String) (db : DB) : Prop :=
  getTable db "public" t = none
  ∨ (∃ pt, getTable db "public" t = some pt ∧ 0 < pt.rows.length ∧
      (schemaExists db c = false ∨ ∃ tt, getTable db c t = some tt ∧ 0 < tt.rows.length))
  ∨ (∃ pt, getTable db "public" t = some pt ∧ pt.rows.length = 0 ∧
      pt.idDefault = ColDefault.noDefault ∧
      (schemaExists db c = false ∨ (getTable db c t).isSome = true))

/-- A provisioned tenant: the schema exists, every template table has a
tenant counterpart, and every seed-table iteration of the data copy is a
no-op.  `create_tenant_schema` establishes this, and on it the migration
path changes nothing. -/
def provisionedInv (c : String) (db : DB) : Prop :=
  schemaExists db c = true
  ∧ (∀ t ∈ get_all_tables_except_user noFail db, t ∈ tenantTableNames db c)
  ∧ (∀ t ∈ seedTables, stepNoop c t db)

/-- How many starter rows each seed entity's creator inserts
(database.py:457,490,531,571). -/
def seedCount (t : String) : Nat :=
  if t = "header" then 1 else if t = "contact" then 1
  else if t = "company" then 3 else if t = "carrousel" then 5 else 0

/-- The failure flag of the creator for seed entity `t`. -/
def seedFailFlag (f : Fail) (t : String) : Bool :=
  if t = "header" then f.header else if t = "contact" then f.contact
  else if t = "company" then f.company else if t = "carrousel" then f.carrousel else false

/-- The injection probe from the spec, `OR 1=1` preceded by a single-quote
character and a space (spelled with `Char.ofNat 39` to keep the file free
of quote characters). -/
def sqlInjName : String := ⟨[Char.ofNat 39, ' ', 'O', 'R', ' ', '1', '=', '1']⟩

/-- A template whose header table holds the one seeded row. -/
def dbHeader : DB :=
  [("public", ⟨[("header", ⟨[1], .nextvalPublic "header_id_seq", true, true⟩)],
               [("header_id_seq", 1)]⟩)]

/-- A template with the four seed tables present and still empty. -/
def dbSeedEmpty : DB :=
  [("public", ⟨[("header", ⟨[], .nextvalPublic "header_id_seq", true, true⟩),
                ("contact", ⟨[], .nextvalPublic "contact_id_seq", true, true⟩),
                ("company", ⟨[], .nextvalPublic "company_id_seq", true, true⟩),
                ("carrousel", ⟨[], .nextvalPublic "carrousel_id_seq", true, true⟩)],
               [("header_id_seq", 0), ("contact_id_seq", 0),
                ("company_id_seq", 0), ("carrousel_id_seq", 0)]⟩)]

/-- `dbHeader` plus an existing tenant schema `tnt` with no tables yet
(schema drift, the reconciler's input). -/
def dbDrift : DB :=
  [("public", ⟨[("header", ⟨[1], .nextvalPublic "header_id_seq", true, true⟩)],
               [("header_id_seq", 1)]⟩),
   ("tnt", ⟨[], []⟩)]

/-- An empty template header table plus a tenant `acme` whose header table
exists and is empty: the state in which seeding tenant `acme` writes into
the template. -/
def dbLazySeed : DB :=
  [("public", ⟨[("header", ⟨[], .nextvalPublic "header_id_seq", true, true⟩)],
               [("header_id_seq", 0)]⟩),
   ("acme", ⟨[("header", ⟨[], .nextvalPublic "header_id_seq", true, true⟩)], []⟩)]

/-- A post-copy tenant state for the sequence-safety claim: three seed rows
with ids 1..3 copied into `acme.header`, whose default was re-pointed to
the tenant-scoped sequence. -/
def dbCopied : DB :=
  [("public", ⟨[("header", ⟨[1, 2, 3], .nextvalPublic "header_id_seq", true, true⟩)],
               [("header_id_seq", 3)]⟩),
   ("acme", ⟨[("header", ⟨[], .nextvalTenant "acme" "header_id_seq", true, true⟩)],
             [("header_id_seq", 0)]⟩)]

/-- The state `create_tenant_schema noFail "acme" dbHeader` produces: the
template untouched, plus a provisioned tenant `acme`. -/
def dbProvisioned : DB :=
  [("public", ⟨[("header", ⟨[1], .nextvalPublic "header_id_seq", true, true⟩)],
               [("header_id_seq", 1)]⟩),
   ("acme", ⟨[("header", ⟨[1], .nextvalTenant "acme" "header_id_seq", true, true⟩)],
             [("header_id_seq", 1)]⟩)]

/-- A state with a seeded template, a fully seeded tenant `acme`, and an
unrelated tenant `beta`: seeding `acme` again changes nothing. -/
def dbTwoTenants : DB :=
  [("public", ⟨[("header", ⟨[1], .nextvalPublic "header_id_seq", true, true⟩)],
               [("header_id_seq", 1)]⟩),
   ("acme", ⟨[("header", ⟨[1], .nextvalTenant "acme" "header_id_seq", true, true⟩)],
             [("header_id_seq", 1)]⟩),
   ("beta", ⟨[("news", ⟨[7], .noDefault, true, true⟩)], []⟩)]

/-- Only the template header insert fails. -/
def headerInsertFails : Fail := ⟨false, true, false, false, false⟩

/-- Only the catalog query of `get_all_tables_except_user` fails. -/
def catalogFails : Fail := ⟨true, false, false, false, false⟩

/-! ## Association-list lemmas -/

theorem lookup_setEntry_self {β : Type} (k : String) (v : β) (l : List (String × β)) :
    (setEntry k v l).lookup k = some v := by
  induction l with
  | nil => simp [setEntry, List.lookup]
  | cons p rest ih =>
      obtain ⟨k', v'⟩ := p
      by_cases h : k = k'
      · simp [setEntry, h, List.lookup]
      · simp [setEntry, h, List.lookup, ih, beq_false_of_ne h]

theorem lookup_setEntry_ne {β : Type} {k k' : String} (v : β) (l : List (String × β))
    (h : k' ≠ k) : (setEntry k v l).lookup k' = l.lookup k' := by
  induction l with
  | nil => simp [setEntry, List.lookup, beq_false_of_ne h]
  | cons p rest ih =>
      obtain ⟨k'', v''⟩ := p
      by_cases hk : k = k''
      · subst hk; simp [setEntry, List.lookup, beq_false_of_ne h]
      · by_cases hk' : k' = k''
        · subst hk'; simp [setEntry, hk, List.lookup]
        · simp [setEntry, hk, List.lookup, beq_false_of_ne hk', ih]

theorem lookup_isSome_iff_mem_keys {β : Type} (k : String) (l : List (String × β)) :
    (l.lookup k).isSome = true ↔ k ∈ l.map Prod.fst := by
  induction l with
  | nil => simp [List.lookup]
  | cons p rest ih =>
      obtain ⟨k', v'⟩ := p
      by_cases h : k = k'
      · subst h; simp [List.lookup]
      · simp [List.lookup, beq_false_of_ne h, h, ih]

theorem keys_setEntry_of_lookup_isSome {β : Type} (k : String) (v : β)
    (l : List (String × β)) (h : (l.lookup k).isSome = true) :
    (setEntry k v l).map Prod.fst = l.map Prod.fst := by
  induction l with
  | nil => simp [List.lookup] at h
  | cons p rest ih =>
      obtain ⟨k', v'⟩ := p
      by_cases hk : k = k'
      · subst hk; simp [setEntry]
      · simp only [List.lookup, beq_false_of_ne hk] at h
        simp [setEntry, hk, ih h]

theorem mem_keys_setEntry {β : Type} {k' : String} (k : String) (v : β)
    (l : List (String × β)) (h : k' ∈ l.map Prod.fst) :
    k' ∈ (setEntry k v l).map Prod.fst := by
  induction l with
  | nil => simp at h
  | cons p rest ih =>
      obtain ⟨k'', v''⟩ := p
      by_cases hk : k = k''
      · subst hk; simpa [setEntry] using h
      · simp only [setEntry, if_neg hk, List.map_cons]
        simp only [List.map_cons] at h
        rcases List.mem_cons.mp h with h1 | h2
        · exact List.mem_cons.mpr (Or.inl h1)
        · exact List.mem_cons.mpr (Or.inr (ih h2))

theorem mem_keys_setEntry_self {β : Type} (k : String) (v : β) (l : List (String × β)) :
    k ∈ (setEntry k v l).map Prod.fst := by
  have := lookup_setEntry_self k v l
  exact (lookup_isSome_iff_mem_keys k (setEntry k v l)).mp (by simp [this])

/-! ## State-primitive lemmas -/

theorem lookup_modifySchema_self (db : DB) (s : String) (f : Schema → Schema) :
    (modifySchema db s f).lookup s = (db.lookup s).map f := by
  unfold modifySchema
  cases h : db.lookup s with
  | none => simp [h]
  | some sc => simp [lookup_setEntry_self]

theorem lookup_modifySchema_ne (db : DB) {s s' : String} (f : Schema → Schema)
    (h : s' ≠ s) : (modifySchema db s f).lookup s' = db.lookup s' := by
  unfold modifySchema
  cases hs : db.lookup s with
  | none => rfl
  | some sc => exact lookup_setEntry_ne _ _ h

theorem schemaExists_modifySchema (db : DB) (s s' : String) (f : Schema → Schema) :
    schemaExists (modifySchema db s f) s' = schemaExists db s' := by
  by_cases h : s' = s
  · subst h; simp [schemaExists, lookup_modifySchema_self]
  · simp [schemaExists, lookup_modifySchema_ne db f h]

theorem getTable_modifySchema_ne (db : DB) {s s' : String} (t : String)
    (f : Schema → Schema) (h : s' ≠ s) :
    getTable (modifySchema db s f) s' t = getTable db s' t := by
  simp [getTable, lookup_modifySchema_ne db f h]

theorem getTable_setTable_self (db : DB) (s t : String) (tb : Table)
    (hs : schemaExists db s = true) : getTable (setTable db s t tb) s t = some tb := by
  unfold setTable getTable
  rw [lookup_modifySchema_self]
  unfold schemaExists at hs
  obtain ⟨sc, hsc⟩ := Option.isSome_iff_exists.mp hs
  simp [hsc, lookup_setEntry_self]

theorem getTable_setTable_ne_schema (db : DB) {s s' : String} (t t' : String) (tb : Table)
    (h : s' ≠ s) : getTable (setTable db s t tb) s' t' = getTable db s' t' :=
  getTable_modifySchema_ne db t' _ h

theorem getTable_setTable_ne_table (db : DB) (s : String) {t t' : String} (tb : Table)
    (h : t' ≠ t) : getTable (setTable db s t tb) s t' = getTable db s t' := by
  unfold setTable getTable
  rw [lookup_modifySchema_self]
  cases hs : db.lookup s with
  | none => rfl
  | some sc => simp [lookup_setEntry_ne _ _ h]

theorem getTable_setSeq (db : DB) (s q : String) (v : Nat) (s' t : String) :
    getTable (setSeq db s q v) s' t = getTable db s' t := by
  by_cases h : s' = s
  · subst h
    unfold setSeq getTable
    rw [lookup_modifySchema_self]
    cases hs : db.lookup s' <;> simp
  · exact getTable_modifySchema_ne db t _ h

theorem getTable_createSeqIfNotExists (db : DB) (s q : String) (s' t : String) :
    getTable (createSeqIfNotExists db s q) s' t = getTable db s' t := by
  unfold createSeqIfNotExists
  by_cases h : (getSeq db s q).isSome
  · simp [h]
  · simp [h, getTable_setSeq]

theorem getSeq_setSeq_self (db : DB) (s q : String) (v : Nat)
    (hs : schemaExists db s = true) : getSeq (setSeq db s q v) s q = some v := by
  unfold setSeq getSeq
  rw [lookup_modifySchema_self]
  unfold schemaExists at hs
  obtain ⟨sc, hsc⟩ := Option.isSome_iff_exists.mp hs
  simp [hsc, lookup_setEntry_self]

theorem getTable_modifyTable_self (db : DB) (s t : String) (f : Table → Table)
    {tb : Table} (h : getTable db s t = some tb) :
    getTable (modifyTable db s t f) s t = some (f tb) := by
  unfold getTable at h
  cases hs : db.lookup s with
  | none => simp [hs] at h
  | some sc =>
      simp [hs] at h
      unfold modifyTable getTable
      rw [lookup_modifySchema_self]
      simp [hs, h, lookup_setEntry_self]

theorem getTable_modifyTable_ne_schema (db : DB) {s s' : String} (t t' : String)
    (f : Table → Table) (h : s' ≠ s) :
    getTable (modifyTable db s t f) s' t' = getTable db s' t' :=
  getTable_modifySchema_ne db t' _ h

theorem getTable_modifyTable_ne_table (db : DB) (s : String) {t t' : String}
    (f : Table → Table) (h : t' ≠ t) :
    getTable (modifyTable db s t f) s t' = getTable db s t' := by
  unfold modifyTable getTable
  rw [lookup_modifySchema_self]
  cases hs : db.lookup s with
  | none => rfl
  | some sc =>
      cases ht : sc.tables.lookup t with
      | none => simp [ht]
      | some tb => simp [ht, lookup_setEntry_ne _ _ h]

theorem schemaExists_setTable (db : DB) (s t : String) (tb : Table) (s' : String) :
    schemaExists (setTable db s t tb) s' = schemaExists db s' :=
  schemaExists_modifySchema db s s' _

theorem schemaExists_modifyTable (db : DB) (s t : String) (f : Table → Table) (s' : String) :
    schemaExists (modifyTable db s t f) s' = schemaExists db s' :=
  schemaExists_modifySchema db s s' _

theorem schemaExists_setSeq (db : DB) (s q : String) (v : Nat) (s' : String) :
    schemaExists (setSeq db s q v) s' = schemaExists db s' :=
  schemaExists_modifySchema db s s' _

theorem schemaExists_createSeqIfNotExists (db : DB) (s q : String) (s' : String) :
    schemaExists (createSeqIfNotExists db s q) s' = schemaExists db s' := by
  unfold createSeqIfNotExists
  by_cases h : (getSeq db s q).isSome
  · simp [h]
  · simp [h, schemaExists_setSeq]

theorem schemaExists_of_getTable {db : DB} {s t : String} {tb : Table}
    (h : getTable db s t = some tb) : schemaExists db s = true := by
  unfold getTable at h
  unfold schemaExists
  cases hs : db.lookup s with
  | none => rw [hs] at h; simp at h
  | some sc => simp

theorem getTable_none_of_no_schema {db : DB} {s : String} (t : String)
    (h : schemaExists db s = false) : getTable db s t = none := by
  unfold schemaExists at h
  unfold getTable
  cases hs : db.lookup s with
  | none => rfl
  | some sc => rw [hs] at h; simp at h

/-! ## C4: naming safety of provisioning -/

/-- **C4.** `create_tenant_schema` rejects each of `bad;name`, the
single-quoted `OR 1=1` probe, and the empty string as a configuration
error (the `ValueError` branch), uniformly in the database state and in the
failure environment: the result depends only on the rejected name, which is
checked before anything reaches the database, so no DDL is issued. -/
theorem provision_rejects_unsafe_names :
    (∀ (f : Fail) (db : DB), create_tenant_schema f "bad;name" db
        = .error ("Nombre de esquema invalido: " ++ "bad;name"))
    ∧ (∀ (f : Fail) (db : DB), create_tenant_schema f sqlInjName db
        = .error ("Nombre de esquema invalido: " ++ sqlInjName))
    ∧ (∀ (f : Fail) (db : DB), create_tenant_schema f "" db
        = .error ("Nombre de esquema invalido: " ++ "")) := by
  refine ⟨fun f db => ?_, fun f db => ?_, fun f db => ?_⟩
  · have h : validate_schema_name "bad;name" = false := by decide
    unfold create_tenant_schema
    simp [h]
  · have h : validate_schema_name sqlInjName = false := by decide
    unfold create_tenant_schema
    simp [h]
  · have h : validate_schema_name "" = false := by decide
    unfold create_tenant_schema
    simp [h]

/-! ## C1: tenant sessions and unsafe names -/

/-- **C1.** Evaluating the session factory at the failing input `bad;name`:
the name fails the naming-safety rule, yet `get_tenant_session` does not
reject it — the first SQL statement it sends interpolates the raw name into
`SET search_path TO bad;name, public`, and the request is only turned away
later (as a 404) after that statement reached the database.  By contrast,
`get_tenant_db` rejects the same name having sent no SQL at all. -/
theorem tenant_session_sends_sql_for_unsafe_name :
    validate_schema_name "bad;name" = false
    ∧ (get_tenant_session "bad;name" dbHeader).2.head?
        = some "SET search_path TO bad;name, public"
    ∧ (get_tenant_session "bad;name" dbHeader).1
        = .error ⟨404, "Esquema para cliente bad;name no encontrado"⟩
    ∧ get_tenant_db "bad;name" dbHeader
        = (.error "Nombre de esquema invalido: bad;name", []) := by decide

/-! ## C2: missing tenant schema -/

/-- **C2 counterexample.** With no schema `ghost` in the catalog,
`get_tenant_db "ghost"` does not fail with a tenant-not-found error: it
yields a usable handle whose search path makes an unqualified `header`
lookup resolve against the template (public) namespace. -/
theorem tenant_db_silently_falls_back :
    schemaExists dbHeader "ghost" = false
    ∧ (get_tenant_db "ghost" dbHeader).1 = .ok ⟨["ghost", "public"]⟩
    ∧ resolveTable dbHeader ["ghost", "public"] "header" = some "public" := by decide

/-- **C2 amended.** For a well-formed tenant name whose schema does not
exist, `get_tenant_session` fails with the distinct 404 tenant-not-found
error and never yields; `get_tenant_db`, however, performs no existence
check: it yields a handle whose search path resolves every table exactly as
the template namespace alone would. -/
theorem session_not_found_vs_db_fallback (db : DB) (c : String)
    (hne : schemaExists db c = false) (hblank : ¬ pyStrip c = "") :
    (get_tenant_session c db).1
      = .error ⟨404, "Esquema para cliente " ++ c ++ " no encontrado"⟩
    ∧ (validate_schema_name c = true →
        (get_tenant_db c db).1 = .ok ⟨[c, "public"]⟩
        ∧ ∀ t, resolveTable db [c, "public"] t = resolveTable db ["public"] t) := by
  constructor
  · unfold get_tenant_session
    simp [hblank, hne]
  · intro hv
    refine ⟨by unfold get_tenant_db; simp [hv], fun t => ?_⟩
    have hnone : getTable db c t = none := getTable_none_of_no_schema t hne
    cases hp : getTable db "public" t with
    | none => simp [resolveTable, hnone, hp]
    | some pt => simp [resolveTable, hnone, hp]

/-- Witness for `session_not_found_vs_db_fallback` at `ghost` over
`dbHeader`. -/
theorem session_not_found_vs_db_fallback_witness :
    (get_tenant_session "ghost" dbHeader).1
      = .error ⟨404, "Esquema para cliente " ++ "ghost" ++ " no encontrado"⟩
    ∧ (validate_schema_name "ghost" = true →
        (get_tenant_db "ghost" dbHeader).1 = .ok ⟨["ghost", "public"]⟩
        ∧ ∀ t, resolveTable dbHeader ["ghost", "public"] t
            = resolveTable dbHeader ["public"] t) :=
  session_not_found_vs_db_fallback dbHeader "ghost" (by decide) (by decide)

/-! ## C5: template seeding under partial failure -/

/-- **C5 counterexample.** With all four template seed tables empty and only
the header insert failing, `create_public_initial_data` reports failure and
leaves contact, company and carrousel unseeded — while the no-failure run
seeds them — so a failure in one entity does abort the other three. -/
theorem template_seeding_not_failure_tolerant :
    (create_public_initial_data headerInsertFails dbSeedEmpty).2 = false
    ∧ countRows (create_public_initial_data headerInsertFails dbSeedEmpty).1
        "public" "contact" = some 0
    ∧ countRows (create_public_initial_data headerInsertFails dbSeedEmpty).1
        "public" "company" = some 0
    ∧ countRows (create_public_initial_data headerInsertFails dbSeedEmpty).1
        "public" "carrousel" = some 0
    ∧ (create_public_initial_data noFail dbSeedEmpty).2 = true
    ∧ countRows (create_public_initial_data noFail dbSeedEmpty).1
        "public" "contact" = some 1
    ∧ countRows (create_public_initial_data noFail dbSeedEmpty).1
        "public" "carrousel" = some 5 := by decide

/-- **C5 amended.** Template seeding is sequential and failure propagates:
whenever the header seeder needs to insert (empty header table) and its
insert fails, `create_public_initial_data` raises immediately — the state
is unchanged and the contact, company and carrousel seeders never run. -/
theorem template_seeding_aborts_rest (f : Fail) (db : DB)
    (hf : f.header = true) (h0 : countRows db "public" "header" = some 0) :
    create_public_initial_data f db = (db, false) := by
  unfold create_public_initial_data create_initial_header
  simp [h0, hf]

/-- Witness for `template_seeding_aborts_rest`. -/
theorem template_seeding_aborts_rest_witness :
    create_public_initial_data headerInsertFails dbSeedEmpty = (dbSeedEmpty, false) :=
  template_seeding_aborts_rest headerInsertFails dbSeedEmpty (by decide) (by decide)

/-! ## C9: the registration endpoint and the provisioning outcome -/

/-- **C9 counterexample.** Provisioning of the client `bad;name` fails
outright, yet the registration endpoint returns the very same success
response it returns when provisioning succeeds: the outcome is swallowed by
the `except` handler and does not determine the response. -/
theorem provisioning_failure_not_distinguished :
    create_tenant_schema noFail "bad;name" dbHeader
      = .error "Nombre de esquema invalido: bad;name"
    ∧ (create_user ⟨"a@b.c", "pw", "Ann", "bad;name"⟩ false noFail dbHeader).1
      = .created "Usuario creado exitosamente" "a@b.c" "Ann" "bad;name"
    ∧ (create_user ⟨"a@b.c", "pw", "Ann", "acme"⟩ false noFail dbHeader).1
      = .created "Usuario creado exitosamente" "a@b.c" "Ann" "acme" := by decide

/-- **C9 amended.** `setup_new_tenant` does expose a boolean result, but the
registration endpoint neither calls it nor branches on any provisioning
outcome: for every request (with a fresh email) and every failure
environment, `create_user` returns the fixed success response, whatever
`create_tenant_schema` did. -/
theorem registration_ignores_provisioning_outcome (req : UserCreateRequest)
    (f : Fail) (db : DB) :
    (create_user req false f db).1
      = .created "Usuario creado exitosamente" req.email req.full_name req.client := by
  unfold create_user
  cases h : create_tenant_schema f req.client db <;> simp [h]

/-! ## C10: swallowed catalog failure -/

/-- **C10.** When the catalog query behind `get_all_tables_except_user`
fails, the function returns the empty list instead of propagating;
provisioning a fresh, well-formed tenant then logs its warning and returns
success, having created the tenant schema with no tables at all — the
failure never surfaces to the caller. -/
theorem catalog_failure_yields_empty_tenant (db : DB) (c : String)
    (hv : validate_schema_name c = true) (hne : schemaExists db c = false) :
    get_all_tables_except_user catalogFails db = []
    ∧ create_tenant_schema catalogFails c db = .ok (setEntry c ⟨[], []⟩ db)
    ∧ (setEntry c ⟨[], []⟩ db).lookup c = some ⟨[], []⟩ := by
  refine ⟨rfl, ?_, lookup_setEntry_self ..⟩
  unfold create_tenant_schema createSchemaIfNotExists
  simp [hv, hne, get_all_tables_except_user, catalogFails]

/-- Witness for `catalog_failure_yields_empty_tenant` at `acme` over
`dbHeader`. -/
theorem catalog_failure_yields_empty_tenant_witness :
    get_all_tables_except_user catalogFails dbHeader = []
    ∧ create_tenant_schema catalogFails "acme" dbHeader
        = .ok (setEntry "acme" ⟨[], []⟩ dbHeader)
    ∧ (setEntry "acme" ⟨[], []⟩ dbHeader).lookup "acme" = some ⟨[], []⟩ :=
  catalog_failure_yields_empty_tenant dbHeader "acme" (by decide) (by decide)

/-! ## C6: the two table-creation procedures -/

/-- **C6 counterexample.** On a template header table with a serial default,
the reconciler's missing-table creation (`LIKE ... INCLUDING ALL`) copies
the default referencing the template-owned sequence and creates no
tenant-scoped sequence, while the provisioner's per-table step re-points
the default to a tenant-scoped sequence: the two procedures do not produce
structurally identical tenant tables. -/
theorem reconciler_differs_from_provisioner :
    getTable (reconcileTableStep "tnt" dbDrift "header") "tnt" "header"
      = some ⟨[], .nextvalPublic "header_id_seq", true, true⟩
    ∧ getTable (provisionTableStep "tnt" dbDrift "header") "tnt" "header"
      = some ⟨[], .nextvalTenant "tnt" "header_id_seq", true, true⟩
    ∧ ¬ reconcileTableStep "tnt" dbDrift "header"
        = provisionTableStep "tnt" dbDrift "header" := by decide

/-- **C6 amended.** The provisioner's per-table step creates the tenant table
without the template's column default and re-points the auto-increment
default to a tenant-scoped sequence; the reconciler's step creates it with
`INCLUDING ALL`, keeping the default exactly as the template has it — a
`nextval` on the template-owned sequence — and creating no tenant-scoped
sequence.  Constraints and indexes are copied by both. -/
theorem table_creation_rules (db : DB) (c t q : String) (pt : Table)
    (hpub : getTable db "public" t = some pt) (hdef : pt.idDefault = .nextvalPublic q)
    (hmiss : getTable db c t = none) (hs : schemaExists db c = true) :
    getTable (provisionTableStep c db t) c t
      = some ⟨[], .nextvalTenant c q, pt.hasConstraints, pt.hasIndexes⟩
    ∧ getTable (reconcileTableStep c db t) c t
      = some ⟨[], .nextvalPublic q, pt.hasConstraints, pt.hasIndexes⟩ := by
  have hcp : ¬ "public" = c := by
    intro h
    rw [← h] at hmiss
    rw [hmiss] at hpub
    exact absurd hpub (by simp)
  constructor
  · unfold provisionTableStep
    simp only [createTableLike, hpub, hmiss, if_false, Bool.false_eq_true]
    have h1 : getTable (setTable db c t
        ⟨[], .noDefault, pt.hasConstraints, pt.hasIndexes⟩) c t
        = some ⟨[], .noDefault, pt.hasConstraints, pt.hasIndexes⟩ :=
      getTable_setTable_self db c t _ hs
    have h2 : getTable (setTable db c t
        ⟨[], .noDefault, pt.hasConstraints, pt.hasIndexes⟩) "public" t = some pt := by
      rw [getTable_setTable_ne_schema db t t _ hcp]
      exact hpub
    simp only [create_tenant_sequences, h2, hdef]
    have h3 : getTable (createSeqIfNotExists (setTable db c t
        ⟨[], .noDefault, pt.hasConstraints, pt.hasIndexes⟩) c q) c t
        = some ⟨[], .noDefault, pt.hasConstraints, pt.hasIndexes⟩ := by
      rw [getTable_createSeqIfNotExists]
      exact h1
    rw [getTable_modifyTable_self _ _ _ _ h3]
  · unfold reconcileTableStep
    simp only [createTableLike, hpub, hmiss, if_true]
    rw [getTable_setTable_self db c t _ hs, hdef]

/-- Witness for `table_creation_rules` over `dbDrift`. -/
theorem table_creation_rules_witness :
    getTable (provisionTableStep "tnt" dbDrift "header") "tnt" "header"
      = some ⟨[], .nextvalTenant "tnt" "header_id_seq", true, true⟩
    ∧ getTable (reconcileTableStep "tnt" dbDrift "header") "tnt" "header"
      = some ⟨[], .nextvalPublic "header_id_seq", true, true⟩ :=
  table_creation_rules dbDrift "tnt" "header" "header_id_seq"
    ⟨[1], .nextvalPublic "header_id_seq", true, true⟩
    (by decide) (by decide) (by decide) (by decide)

/-! ## C8: sequence safety after the copy -/

theorem foldr_max_init (l : List Nat) (x : Nat) :
    l.foldr max x = max (l.foldr max 0) x := by
  induction l with
  | nil => simp
  | cons a l ih =>
      simp only [List.foldr, ih]
      omega

theorem maxId_append_singleton (l : List Nat) (x : Nat) :
    maxId (l ++ [x]) = max (maxId l) x := by
  unfold maxId
  rw [List.foldr_append]
  simp only [List.foldr]
  rw [foldr_max_init]
  omega

theorem maxId_range_one (N : Nat) : maxId (List.range' 1 N) = N := by
  induction N with
  | zero => rfl
  | succ n ih =>
      rw [List.range'_concat]
      rw [maxId_append_singleton, ih]
      omega

/-- **C8.** After the copy step placed the template's rows with ids `1..N`
into the fresh (empty) tenant table whose default was re-pointed to the
tenant-scoped sequence, `update_tenant_sequences` sets that sequence to the
maximum copied id, so the next default-id insert appends exactly the row
id `N + 1`, which collides with no existing id. -/
theorem copy_update_gives_collision_free_next_id (db : DB) (c t q : String)
    (N : Nat) (pt tb : Table)
    (hpub : getTable db "public" t = some pt) (hprows : pt.rows = List.range' 1 N)
    (hten : getTable db c t = some tb) (htrows : tb.rows = [])
    (hdef : tb.idDefault = .nextvalTenant c q) :
    ∃ tb', getTable (insertRowDefault
        (update_tenant_sequences (copyRows db c t) c t) c t) c t = some tb'
      ∧ tb'.rows = List.range' 1 N ++ [N + 1]
      ∧ ¬ (N + 1) ∈ List.range' 1 N := by
  have hs : schemaExists db c = true := schemaExists_of_getTable hten
  have hcopy : copyRows db c t
      = modifyTable db c t fun tb0 => { tb0 with rows := tb0.rows ++ pt.rows } := by
    unfold copyRows
    rw [hpub]
  have h1 : getTable (copyRows db c t) c t = some { tb with rows := List.range' 1 N } := by
    rw [hcopy, getTable_modifyTable_self db c t _ hten, htrows, hprows]
    simp
  have hdefC : ({ tb with rows := List.range' 1 N } : Table).idDefault
      = ColDefault.nextvalTenant c q := hdef
  have hupd : update_tenant_sequences (copyRows db c t) c t
      = setSeq (copyRows db c t) c q N := by
    unfold update_tenant_sequences
    rw [h1, hdef]
    simp [maxId_range_one]
  have h2 : getTable (update_tenant_sequences (copyRows db c t) c t) c t
      = some { tb with rows := List.range' 1 N } := by
    rw [hupd, getTable_setSeq]
    exact h1
  have hs2 : schemaExists (copyRows db c t) c = true := by
    rw [hcopy, schemaExists_modifyTable]
    exact hs
  have hq : getSeq (update_tenant_sequences (copyRows db c t) c t) c q = some N := by
    rw [hupd]
    exact getSeq_setSeq_self _ _ _ _ hs2
  have hins : insertRowDefault (update_tenant_sequences (copyRows db c t) c t) c t
      = modifyTable (setSeq (update_tenant_sequences (copyRows db c t) c t) c q (N + 1))
          c t fun tb' => { tb' with rows := tb'.rows ++ [N + 1] } := by
    unfold insertRowDefault
    rw [h2, hdef]
    simp only [nextvalFor]
    rw [hq]
    simp
  have h3 : getTable (setSeq (update_tenant_sequences (copyRows db c t) c t) c q (N + 1)) c t
      = some { tb with rows := List.range' 1 N } := by
    rw [getTable_setSeq]
    exact h2
  refine ⟨_, by rw [hins]; exact getTable_modifyTable_self _ _ _ _ h3, by simp, ?_⟩
  simp only [List.mem_range'_1]
  omega

/-- Witness for `copy_update_gives_collision_free_next_id` over `dbCopied`
with three seed rows. -/
theorem copy_update_gives_collision_free_next_id_witness :
    ∃ tb', getTable (insertRowDefault
        (update_tenant_sequences (copyRows dbCopied "acme" "header") "acme" "header")
        "acme" "header") "acme" "header" = some tb'
      ∧ tb'.rows = List.range' 1 3 ++ [3 + 1]
      ∧ ¬ (3 + 1) ∈ List.range' 1 3 :=
  copy_update_gives_collision_free_next_id dbCopied "acme" "header" "header_id_seq" 3
    ⟨[1, 2, 3], .nextvalPublic "header_id_seq", true, true⟩
    ⟨[], .nextvalTenant "acme" "header_id_seq", true, true⟩
    (by decide) (by decide) (by decide) (by decide) (by decide)

/-! ## Frame lemmas for the seeding step -/

theorem tablesOf_modifySchema_ne (db : DB) {s s' : String} (f : Schema → Schema)
    (h : s' ≠ s) : tablesOf (modifySchema db s f) s' = tablesOf db s' := by
  unfold tablesOf
  rw [lookup_modifySchema_ne db f h]

theorem tablesOf_setSeq (db : DB) (s q : String) (v : Nat) (s' : String) :
    tablesOf (setSeq db s q v) s' = tablesOf db s' := by
  by_cases h : s' = s
  · subst h
    unfold setSeq tablesOf
    rw [lookup_modifySchema_self]
    cases db.lookup s' <;> simp
  · exact tablesOf_modifySchema_ne db _ h

theorem tablesOf_createSeqIfNotExists (db : DB) (s q : String) (s' : String) :
    tablesOf (createSeqIfNotExists db s q) s' = tablesOf db s' := by
  unfold createSeqIfNotExists
  by_cases h : (getSeq db s q).isSome
  · simp [h]
  · simp [h, tablesOf_setSeq]

theorem tablesOf_modifyTable_ne (db : DB) {s s' : String} (t : String)
    (f : Table → Table) (h : s' ≠ s) :
    tablesOf (modifyTable db s t f) s' = tablesOf db s' :=
  tablesOf_modifySchema_ne db _ h

theorem tablesOf_setTable_ne (db : DB) {s s' : String} (t : String) (tb : Table)
    (h : s' ≠ s) : tablesOf (setTable db s t tb) s' = tablesOf db s' :=
  tablesOf_modifySchema_ne db _ h

theorem tablesOf_insertRowDefault_ne (db : DB) {s s' : String} (t : String)
    (h : s' ≠ s) : tablesOf (insertRowDefault db s t) s' = tablesOf db s' := by
  unfold insertRowDefault
  cases hg : getTable db s t with
  | none => rfl
  | some tb =>
      cases hd : tb.idDefault with
      | noDefault => simp [hd, nextvalFor]
      | nextvalPublic q => simp [hd, nextvalFor, tablesOf_modifyTable_ne _ _ _ h, tablesOf_setSeq]
      | nextvalTenant sch q =>
          simp [hd, nextvalFor, tablesOf_modifyTable_ne _ _ _ h, tablesOf_setSeq]

theorem tablesOf_insertRowsN_ne (s : String) {s' : String} (t : String) (n : Nat) (db : DB)
    (h : s' ≠ s) : tablesOf (insertRowsN s t n db) s' = tablesOf db s' := by
  induction n with
  | zero => rfl
  | succ m ih => rw [insertRowsN, tablesOf_insertRowDefault_ne _ _ h, ih]

theorem getTable_insertRowDefault_pub_ne (db : DB) {t t' : String}
    (h : t' ≠ t) :
    getTable (insertRowDefault db "public" t) "public" t' = getTable db "public" t' := by
  unfold insertRowDefault
  cases hg : getTable db "public" t with
  | none => rfl
  | some tb =>
      cases hd : tb.idDefault with
      | noDefault => simp [hd, nextvalFor]
      | nextvalPublic q =>
          simp only [hd, nextvalFor]
          rw [getTable_modifyTable_ne_table _ _ _ h, getTable_setSeq]
      | nextvalTenant sch q =>
          simp only [hd, nextvalFor]
          rw [getTable_modifyTable_ne_table _ _ _ h, getTable_setSeq]

theorem getTable_insertRowsN_pub_ne {t t' : String} (n : Nat) (db : DB)
    (h : t' ≠ t) :
    getTable (insertRowsN "public" t n db) "public" t' = getTable db "public" t' := by
  induction n with
  | zero => rfl
  | succ m ih => rw [insertRowsN, getTable_insertRowDefault_pub_ne _ h, ih]

theorem create_initial_header_ok (f : Fail) (db : DB) {db1 : DB}
    (h : create_initial_header f db = .ok db1) :
    db1 = db ∨ (countRows db "public" "header" = some 0
      ∧ db1 = insertRowsN "public" "header" 1 db) := by
  unfold create_initial_header at h
  cases hc : countRows db "public" "header" with
  | none => rw [hc] at h; simp at h
  | some k =>
      rw [hc] at h
      by_cases hk : k = 0
      · subst hk
        by_cases hf : f.header = true
        · simp [hf] at h
        · simp [hf] at h
          exact Or.inr ⟨rfl, h.symm⟩
      · simp [hk] at h
        exact Or.inl h.symm

theorem create_initial_contact_ok (f : Fail) (db : DB) {db1 : DB}
    (h : create_initial_contact f db = .ok db1) :
    db1 = db ∨ (countRows db "public" "contact" = some 0
      ∧ db1 = insertRowsN "public" "contact" 1 db) := by
  unfold create_initial_contact at h
  cases hc : countRows db "public" "contact" with
  | none => rw [hc] at h; simp at h
  | some k =>
      rw [hc] at h
      by_cases hk : k = 0
      · subst hk
        by_cases hf : f.contact = true
        · simp [hf] at h
        · simp [hf] at h
          exact Or.inr ⟨rfl, h.symm⟩
      · simp [hk] at h
        exact Or.inl h.symm

theorem create_initial_company_ok (f : Fail) (db : DB) {db1 : DB}
    (h : create_initial_company f db = .ok db1) :
    db1 = db ∨ (countRows db "public" "company" = some 0
      ∧ db1 = insertRowsN "public" "company" 3 db) := by
  unfold create_initial_company at h
  cases hc : countRows db "public" "company" with
  | none => rw [hc] at h; simp at h
  | some k =>
      rw [hc] at h
      by_cases hk : k = 0
      · subst hk
        by_cases hf : f.company = true
        · simp [hf] at h
        · simp [hf] at h
          exact Or.inr ⟨rfl, h.symm⟩
      · simp [hk] at h
        exact Or.inl h.symm

theorem create_initial_carrousels_ok (f : Fail) (db : DB) {db1 : DB}
    (h : create_initial_carrousels f db = .ok db1) :
    db1 = db ∨ (countRows db "public" "carrousel" = some 0
      ∧ db1 = insertRowsN "public" "carrousel" 5 db) := by
  unfold create_initial_carrousels at h
  cases hc : countRows db "public" "carrousel" with
  | none => rw [hc] at h; simp at h
  | some k =>
      rw [hc] at h
      by_cases hk : k = 0
      · subst hk
        by_cases hf : f.carrousel = true
        · simp [hf] at h
        · simp [hf] at h
          exact Or.inr ⟨rfl, h.symm⟩
      · simp [hk] at h
        exact Or.inl h.symm

theorem seedPublicEntity_ok_cases (f : Fail) (db : DB) (t : String) {db1 : DB}
    (h : seedPublicEntity f db t = .ok db1) :
    db1 = db ∨ (countRows db "public" t = some 0
      ∧ db1 = insertRowsN "public" t (seedCount t) db) := by
  unfold seedPublicEntity at h
  by_cases h1 : t = "header"
  · subst h1
    simp only [if_pos rfl] at h
    simpa [seedCount] using create_initial_header_ok f db h
  by_cases h2 : t = "contact"
  · subst h2
    simp only [h1, if_false, if_pos rfl] at h
    simpa [seedCount] using create_initial_contact_ok f db h
  by_cases h3 : t = "company"
  · subst h3
    simp only [h1, h2, if_false, if_pos rfl] at h
    simpa [seedCount] using create_initial_company_ok f db h
  by_cases h4 : t = "carrousel"
  · subst h4
    simp only [h1, h2, h3, if_false, if_pos rfl] at h
    simpa [seedCount] using create_initial_carrousels_ok f db h
  · simp only [h1, h2, h3, h4, if_false] at h
    simp at h
    exact Or.inl h.symm

theorem tablesOf_createTableLike_ne (db : DB) {A B : String} (t : String) (b : Bool)
    (h : B ≠ A) : tablesOf (createTableLike db A t b) B = tablesOf db B := by
  unfold createTableLike
  cases getTable db "public" t with
  | none => rfl
  | some pt =>
      cases getTable db A t with
      | some tb => rfl
      | none => exact tablesOf_setTable_ne _ _ _ h

theorem tablesOf_copyRows_ne (db : DB) {A B : String} (t : String)
    (h : B ≠ A) : tablesOf (copyRows db A t) B = tablesOf db B := by
  unfold copyRows
  cases getTable db "public" t with
  | none => rfl
  | some pt => exact tablesOf_modifyTable_ne _ _ _ h

theorem tablesOf_update_tenant_sequences (db : DB) (A t B : String) :
    tablesOf (update_tenant_sequences db A t) B = tablesOf db B := by
  unfold update_tenant_sequences
  cases hg : getTable db A t with
  | none => rfl
  | some tb =>
      cases hd : tb.idDefault with
      | noDefault => simp [hd]
      | nextvalPublic q => simp [hd, tablesOf_setSeq]
      | nextvalTenant sch q => simp [hd, tablesOf_setSeq]

theorem getTable_createTableLike_pub (db : DB) {A : String} (t t' : String) (b : Bool)
    (hA : ¬ A = "public") :
    getTable (createTableLike db A t b) "public" t' = getTable db "public" t' := by
  unfold createTableLike
  cases getTable db "public" t with
  | none => rfl
  | some pt =>
      cases getTable db A t with
      | some tb => rfl
      | none => exact getTable_setTable_ne_schema db _ _ _ fun hp => hA hp.symm

theorem getTable_copyRows_pub (db : DB) {A : String} (t t' : String)
    (hA : ¬ A = "public") :
    getTable (copyRows db A t) "public" t' = getTable db "public" t' := by
  unfold copyRows
  cases getTable db "public" t with
  | none => rfl
  | some pt => exact getTable_modifyTable_ne_schema db _ _ _ fun hp => hA hp.symm

theorem getTable_update_tenant_sequences (db : DB) (A t : String) (s' t' : String) :
    getTable (update_tenant_sequences db A t) s' t' = getTable db s' t' := by
  unfold update_tenant_sequences
  cases hg : getTable db A t with
  | none => rfl
  | some tb =>
      cases hd : tb.idDefault with
      | noDefault => simp [hd]
      | nextvalPublic q => simp [hd, getTable_setSeq]
      | nextvalTenant sch q => simp [hd, getTable_setSeq]

/-- The shapes a seed-table iteration can take: unchanged state, or a lazy
template seed (only when the template table was counted empty), then
possibly a tenant-table creation, then possibly the row copy with the
sequence update. -/
theorem tenantSeedStep_cases (f : Fail) (A : String) (db : DB) (t : String) :
    tenantSeedStep f A db t = db
    ∨ ∃ db1 db2,
        (db1 = db ∨ (countRows db "public" t = some 0
           ∧ db1 = insertRowsN "public" t (seedCount t) db))
        ∧ (db2 = db1 ∨ db2 = createTableLike db1 A t true)
        ∧ (tenantSeedStep f A db t = db2
           ∨ tenantSeedStep f A db t = update_tenant_sequences (copyRows db2 A t) A t) := by
  unfold tenantSeedStep
  cases hc : countRows db "public" t with
  | none => exact Or.inl rfl
  | some pc0 =>
      have hstep : ∀ dbx : DB,
          (∃ db2, (db2 = dbx ∨ db2 = createTableLike dbx A t true)
            ∧ (((match countRows (if (getTable dbx A t).isSome then dbx
                    else createTableLike dbx A t true) A t with
                | none => (if (getTable dbx A t).isSome then dbx
                    else createTableLike dbx A t true)
                | some tc =>
                    if tc > 0 then (if (getTable dbx A t).isSome then dbx
                      else createTableLike dbx A t true)
                    else if (countRows dbx "public" t).getD 0 > 0 then
                      update_tenant_sequences (copyRows (if (getTable dbx A t).isSome then dbx
                        else createTableLike dbx A t true) A t) A t
                    else (if (getTable dbx A t).isSome then dbx
                      else createTableLike dbx A t true)) : DB) = db2
              ∨ (match countRows (if (getTable dbx A t).isSome then dbx
                    else createTableLike dbx A t true) A t with
                | none => (if (getTable dbx A t).isSome then dbx
                    else createTableLike dbx A t true)
                | some tc =>
                    if tc > 0 then (if (getTable dbx A t).isSome then dbx
                      else createTableLike dbx A t true)
                    else if (countRows dbx "public" t).getD 0 > 0 then
                      update_tenant_sequences (copyRows (if (getTable dbx A t).isSome then dbx
                        else createTableLike dbx A t true) A t) A t
                    else (if (getTable dbx A t).isSome then dbx
                      else createTableLike dbx A t true)) = update_tenant_sequences (copyRows db2 A t) A t)) := by
        intro dbx
        refine ⟨if (getTable dbx A t).isSome then dbx else createTableLike dbx A t true, ?_, ?_⟩
        · by_cases hex : (getTable dbx A t).isSome <;> simp [hex]
        · cases hct : countRows (if (getTable dbx A t).isSome then dbx
              else createTableLike dbx A t true) A t with
          | none => exact Or.inl rfl
          | some tc =>
              by_cases htc : tc > 0
              · simp [htc]
              · by_cases hpc : (countRows dbx "public" t).getD 0 > 0
                · simp [htc, hpc]
                · simp [htc, hpc]
      by_cases h0 : pc0 = 0
      · simp only [h0, if_pos]
        cases hse : seedPublicEntity f db t with
        | error e => exact Or.inl rfl
        | ok db1 =>
            obtain ⟨db2, hdb2, hres⟩ := hstep db1
            refine Or.inr ⟨db1, db2, ?_, hdb2, ?_⟩
            · rcases seedPublicEntity_ok_cases f db t hse with h1 | ⟨hc0, h1⟩
              · exact Or.inl h1
              · exact Or.inr ⟨by simp, h1⟩
            · simpa using hres
      · simp only [h0, if_neg]
        obtain ⟨db2, hdb2, hres⟩ := hstep db
        refine Or.inr ⟨db, db2, Or.inl rfl, hdb2, ?_⟩
        simpa using hres

theorem countRows_congr {db1 db0 : DB} (s t : String)
    (h : getTable db1 s t = getTable db0 s t) : countRows db1 s t = countRows db0 s t := by
  unfold countRows
  rw [h]

/-- One seed-table iteration never changes any schema other than the tenant
being seeded and the template. -/
theorem tenantSeedStep_frame_tables (f : Fail) (A : String) (db : DB) (t : String)
    (B : String) (hBA : B ≠ A) (hBp : B ≠ "public") :
    tablesOf (tenantSeedStep f A db t) B = tablesOf db B := by
  rcases tenantSeedStep_cases f A db t with h | ⟨db1, db2, h1, h2, h3⟩
  · rw [h]
  · have e1 : tablesOf db1 B = tablesOf db B := by
      rcases h1 with rfl | ⟨hc0, rfl⟩
      · rfl
      · exact tablesOf_insertRowsN_ne _ _ _ _ hBp
    have e2 : tablesOf db2 B = tablesOf db1 B := by
      rcases h2 with rfl | rfl
      · rfl
      · exact tablesOf_createTableLike_ne _ _ _ hBA
    rcases h3 with h3 | h3 <;> rw [h3]
    · rw [e2, e1]
    · rw [tablesOf_update_tenant_sequences, tablesOf_copyRows_ne _ _ hBA, e2, e1]

/-- One seed-table iteration leaves a template table unchanged unless it is
the iteration's own table found empty (the lazy-seed case). -/
theorem tenantSeedStep_pub_frame (f : Fail) (A : String) (db : DB) (t t' : String)
    (hA : ¬ A = "public")
    (h : t' ≠ t ∨ ¬ countRows db "public" t = some 0) :
    getTable (tenantSeedStep f A db t) "public" t' = getTable db "public" t' := by
  rcases tenantSeedStep_cases f A db t with hr | ⟨db1, db2, h1, h2, h3⟩
  · rw [hr]
  · have e1 : getTable db1 "public" t' = getTable db "public" t' := by
      rcases h1 with rfl | ⟨hc0, rfl⟩
      · rfl
      · rcases h with ht | hcn
        · exact getTable_insertRowsN_pub_ne _ _ ht
        · exact absurd hc0 hcn
    have e2 : getTable db2 "public" t' = getTable db1 "public" t' := by
      rcases h2 with rfl | rfl
      · rfl
      · exact getTable_createTableLike_pub db1 t t' true hA
    rcases h3 with h3 | h3 <;> rw [h3]
    · rw [e2, e1]
    · rw [getTable_update_tenant_sequences, getTable_copyRows_pub _ _ _ hA, e2, e1]

/-! ## C7: isolation of tenant seeding -/

/-- **C7 counterexample.** Copy-seeding tenant `acme` from a template whose
header table is empty inserts the starter row into the template itself:
the template header row count goes from 0 to 1, so seeding a tenant does
alter the template namespace. -/
theorem tenant_seeding_writes_into_template :
    countRows dbLazySeed "public" "header" = some 0
    ∧ (create_tenant_initial_data noFail "acme" dbLazySeed).map
        (fun d => countRows d "public" "header") = .ok (some 1) := by decide

/-- **C7 amended.** Seeding tenant `A` never changes the tables of any other
schema `B` (neither row counts, values, nor structure), and changes a
template table only in the lazy-seed case — when that table is one of the
four seed tables and is found empty; template tables that are missing, are
not seed tables, or already have rows are left unchanged. -/
theorem tenant_seeding_isolated (f : Fail) (A : String) (db db' : DB)
    (hA : ¬ A = "public")
    (h : create_tenant_initial_data f A db = .ok db') :
    (∀ B, B ≠ A → B ≠ "public" → tablesOf db' B = tablesOf db B)
    ∧ (∀ t', (t' ∈ seedTables → ¬ countRows db "public" t' = some 0) →
        getTable db' "public" t' = getTable db "public" t') := by
  have hdb' : db' = tenantSeedStep f A (tenantSeedStep f A (tenantSeedStep f A
      (tenantSeedStep f A db "header") "contact") "company") "carrousel" := by
    unfold create_tenant_initial_data at h
    by_cases hv : validate_schema_name A = true
    · simp only [hv, Bool.not_true, Bool.false_eq_true, if_false, Except.ok.injEq] at h
      rw [← h]
      simp [seedTables]
    · simp [hv] at h
  constructor
  · intro B hBA hBp
    rw [hdb', tenantSeedStep_frame_tables f A _ _ B hBA hBp,
      tenantSeedStep_frame_tables f A _ _ B hBA hBp,
      tenantSeedStep_frame_tables f A _ _ B hBA hBp,
      tenantSeedStep_frame_tables f A _ _ B hBA hBp]
  · intro t' ht'
    have gg1 : getTable (tenantSeedStep f A db "header") "public" t'
        = getTable db "public" t' := by
      by_cases hq : t' = "header"
      · subst hq
        exact tenantSeedStep_pub_frame f A db "header" "header" hA
          (Or.inr (ht' (by decide)))
      · exact tenantSeedStep_pub_frame f A db "header" t' hA (Or.inl hq)
    have gg2 : getTable (tenantSeedStep f A (tenantSeedStep f A db "header") "contact")
        "public" t' = getTable (tenantSeedStep f A db "header") "public" t' := by
      by_cases hq : t' = "contact"
      · subst hq
        refine tenantSeedStep_pub_frame f A _ "contact" "contact" hA (Or.inr ?_)
        have e : getTable (tenantSeedStep f A db "header") "public" "contact"
            = getTable db "public" "contact" :=
          tenantSeedStep_pub_frame f A db "header" "contact" hA (Or.inl (by decide))
        rw [countRows_congr _ _ e]
        exact ht' (by decide)
      · exact tenantSeedStep_pub_frame f A _ "contact" t' hA (Or.inl hq)
    have gg3 : getTable (tenantSeedStep f A (tenantSeedStep f A (tenantSeedStep f A db
        "header") "contact") "company") "public" t'
        = getTable (tenantSeedStep f A (tenantSeedStep f A db "header") "contact")
            "public" t' := by
      by_cases hq : t' = "company"
      · subst hq
        refine tenantSeedStep_pub_frame f A _ "company" "company" hA (Or.inr ?_)
        have e1 : getTable (tenantSeedStep f A db "header") "public" "company"
            = getTable db "public" "company" :=
          tenantSeedStep_pub_frame f A db "header" "company" hA (Or.inl (by decide))
        have e2 : getTable (tenantSeedStep f A (tenantSeedStep f A db "header") "contact")
            "public" "company" = getTable (tenantSeedStep f A db "header") "public"
              "company" :=
          tenantSeedStep_pub_frame f A _ "contact" "company" hA (Or.inl (by decide))
        rw [countRows_congr _ _ (e2.trans e1)]
        exact ht' (by decide)
      · exact tenantSeedStep_pub_frame f A _ "company" t' hA (Or.inl hq)
    have gg4 : getTable (tenantSeedStep f A (tenantSeedStep f A (tenantSeedStep f A
        (tenantSeedStep f A db "header") "contact") "company") "carrousel") "public" t'
        = getTable (tenantSeedStep f A (tenantSeedStep f A (tenantSeedStep f A db
            "header") "contact") "company") "public" t' := by
      by_cases hq : t' = "carrousel"
      · subst hq
        refine tenantSeedStep_pub_frame f A _ "carrousel" "carrousel" hA (Or.inr ?_)
        have e1 : getTable (tenantSeedStep f A db "header") "public" "carrousel"
            = getTable db "public" "carrousel" :=
          tenantSeedStep_pub_frame f A db "header" "carrousel" hA (Or.inl (by decide))
        have e2 : getTable (tenantSeedStep f A (tenantSeedStep f A db "header") "contact")
            "public" "carrousel" = getTable (tenantSeedStep f A db "header") "public"
              "carrousel" :=
          tenantSeedStep_pub_frame f A _ "contact" "carrousel" hA (Or.inl (by decide))
        have e3 : getTable (tenantSeedStep f A (tenantSeedStep f A (tenantSeedStep f A db
            "header") "contact") "company") "public" "carrousel"
            = getTable (tenantSeedStep f A (tenantSeedStep f A db "header") "contact")
                "public" "carrousel" :=
          tenantSeedStep_pub_frame f A _ "company" "carrousel" hA (Or.inl (by decide))
        rw [countRows_congr _ _ ((e3.trans e2).trans e1)]
        exact ht' (by decide)
      · exact tenantSeedStep_pub_frame f A _ "carrousel" t' hA (Or.inl hq)
    rw [hdb', gg4, gg3, gg2, gg1]

/-- Witness for `tenant_seeding_isolated`: re-seeding the fully seeded
`acme` over `dbTwoTenants` changes nothing, and in particular leaves
`beta` and the template untouched. -/
theorem tenant_seeding_isolated_witness :
    (∀ B, B ≠ "acme" → B ≠ "public" →
        tablesOf dbTwoTenants B = tablesOf dbTwoTenants B)
    ∧ (∀ t', (t' ∈ seedTables → ¬ countRows dbTwoTenants "public" t' = some 0) →
        getTable dbTwoTenants "public" t' = getTable dbTwoTenants "public" t') :=
  tenant_seeding_isolated noFail "acme" dbTwoTenants dbTwoTenants
    (by decide) (by decide)

/-! ## Evaluation lemmas for the seeding step -/

theorem tenantSeedStep_eq_tail (f : Fail) (c : String) (db : DB) (t : String) :
    tenantSeedStep f c db t
      = match countRows db "public" t with
        | none => db
        | some pc0 =>
            if pc0 = 0 then
              (match seedPublicEntity f db t with
                | .error _ => db
                | .ok db1 => tenantSeedTail c t db1)
            else tenantSeedTail c t db := by
  cases hcc : countRows db "public" t with
  | none =>
      unfold tenantSeedStep
      rw [hcc]
  | some pc0 =>
      unfold tenantSeedStep tenantSeedTail
      rw [hcc]
      by_cases h0 : pc0 = 0
      · subst h0
        cases seedPublicEntity f db t <;> rfl
      · simp only [if_neg h0]
        rw [hcc]

theorem countRows_none_iff (db : DB) (s t : String) :
    countRows db s t = none ↔ getTable db s t = none := by
  unfold countRows
  cases getTable db s t <;> simp

theorem countRows_eq_some {db : DB} {s t : String} {k : Nat}
    (h : countRows db s t = some k) :
    ∃ tb, getTable db s t = some tb ∧ tb.rows.length = k := by
  unfold countRows at h
  cases hg : getTable db s t with
  | none => rw [hg] at h; simp at h
  | some tb =>
      rw [hg] at h
      simp at h
      exact ⟨tb, rfl, h⟩

theorem countRows_of_getTable {db : DB} {s t : String} {tb : Table}
    (h : getTable db s t = some tb) : countRows db s t = some tb.rows.length := by
  unfold countRows
  rw [h]
  rfl

theorem createTableLike_no_schema {db : DB} {c : String} (t : String) (b : Bool)
    (h : schemaExists db c = false) : createTableLike db c t b = db := by
  unfold createTableLike
  cases getTable db "public" t with
  | none => rfl
  | some pt =>
      rw [getTable_none_of_no_schema t h]
      unfold setTable modifySchema
      unfold schemaExists at h
      cases hl : db.lookup c with
      | none => rfl
      | some sc => rw [hl] at h; simp at h

theorem createTableLike_public_self (db : DB) (t : String) (b : Bool) :
    createTableLike db "public" t b = db := by
  unfold createTableLike
  cases hg : getTable db "public" t with
  | none => rfl
  | some pt => rfl

theorem getTable_createTableLike_self {db : DB} {c t : String} {pt : Table} (b : Bool)
    (hpub : getTable db "public" t = some pt) (hmiss : getTable db c t = none)
    (hs : schemaExists db c = true) :
    getTable (createTableLike db c t b) c t
      = some ⟨[], if b then pt.idDefault else .noDefault,
          pt.hasConstraints, pt.hasIndexes⟩ := by
  unfold createTableLike
  rw [hpub, hmiss]
  exact getTable_setTable_self db c t _ hs

theorem createTableLike_of_isSome {db : DB} {c t : String}
    (h : (getTable db c t).isSome = true) (b : Bool) : createTableLike db c t b = db := by
  unfold createTableLike
  cases getTable db "public" t with
  | none => rfl
  | some pt =>
      cases hg : getTable db c t with
      | none => rw [hg] at h; simp at h
      | some tb => rfl

theorem insertRowsN_noDefault_noop {db : DB} {t : String} {pt : Table} (n : Nat)
    (h : getTable db "public" t = some pt) (hd : pt.idDefault = .noDefault) :
    insertRowsN "public" t n db = db := by
  induction n with
  | zero => rfl
  | succ m ih =>
      rw [insertRowsN, ih]
      unfold insertRowDefault
      simp only [h]
      simp [hd, nextvalFor]

theorem schemaExists_insertRowDefault (db : DB) (s t : String) (s' : String) :
    schemaExists (insertRowDefault db s t) s' = schemaExists db s' := by
  unfold insertRowDefault
  cases hg : getTable db s t with
  | none => rfl
  | some tb =>
      cases hd : tb.idDefault with
      | noDefault => simp [hd, nextvalFor]
      | nextvalPublic q => simp [hd, nextvalFor, schemaExists_modifyTable, schemaExists_setSeq]
      | nextvalTenant sch q =>
          simp [hd, nextvalFor, schemaExists_modifyTable, schemaExists_setSeq]

theorem schemaExists_insertRowsN (s t : String) (n : Nat) (db : DB) (s' : String) :
    schemaExists (insertRowsN s t n db) s' = schemaExists db s' := by
  induction n with
  | zero => rfl
  | succ m ih => rw [insertRowsN, schemaExists_insertRowDefault, ih]

theorem getTable_insertRowsN_pub_self {db : DB} {t : String} {pt : Table} (n : Nat)
    (h : getTable db "public" t = some pt) :
    ∃ rs : List Nat, getTable (insertRowsN "public" t n db) "public" t
        = some ⟨pt.rows ++ rs, pt.idDefault, pt.hasConstraints, pt.hasIndexes⟩
      ∧ (¬ pt.idDefault = .noDefault → rs.length = n)
      ∧ (pt.idDefault = .noDefault → rs = []) := by
  induction n with
  | zero =>
      refine ⟨[], ?_, fun _ => rfl, fun _ => rfl⟩
      simpa using h
  | succ m ih =>
      obtain ⟨rs, hg, hlen, hnil⟩ := ih
      rw [insertRowsN]
      cases hd : pt.idDefault with
      | noDefault =>
          rw [hd] at hg
          refine ⟨rs, ?_, fun hcon => absurd rfl hcon, fun _ => hnil hd⟩
          unfold insertRowDefault
          simp only [hg]
          simp only [nextvalFor]
          exact hg
      | nextvalPublic q =>
          rw [hd] at hg
          refine ⟨rs ++ [(getSeq (insertRowsN "public" t m db) "public" q).getD 0 + 1],
            ?_, fun _ => ?_, fun hcon => ?_⟩
          · unfold insertRowDefault
            simp only [hg]
            simp only [nextvalFor]
            have hpre := getTable_setSeq (insertRowsN "public" t m db) "public" q
              ((getSeq (insertRowsN "public" t m db) "public" q).getD 0 + 1) "public" t
            rw [getTable_modifyTable_self _ _ _ _ (hpre.trans hg)]
            simp
          · have : rs.length = m := hlen (by rw [hd]; simp)
            simp [this]
          · simp at hcon
      | nextvalTenant sch q =>
          rw [hd] at hg
          refine ⟨rs ++ [(getSeq (insertRowsN "public" t m db) sch q).getD 0 + 1],
            ?_, fun _ => ?_, fun hcon => ?_⟩
          · unfold insertRowDefault
            simp only [hg]
            simp only [nextvalFor]
            have hpre := getTable_setSeq (insertRowsN "public" t m db) sch q
              ((getSeq (insertRowsN "public" t m db) sch q).getD 0 + 1) "public" t
            rw [getTable_modifyTable_self _ _ _ _ (hpre.trans hg)]
            simp
          · have : rs.length = m := hlen (by rw [hd]; simp)
            simp [this]
          · simp at hcon

theorem getTable_of_tablesOf {db1 db0 : DB} {s : String}
    (h : tablesOf db1 s = tablesOf db0 s) (t : String) :
    getTable db1 s t = getTable db0 s t := by
  unfold tablesOf at h
  unfold getTable
  cases h1 : db1.lookup s with
  | none =>
      rw [h1] at h
      cases h0 : db0.lookup s with
      | none => rfl
      | some sc0 => rw [h0] at h; simp at h
  | some sc1 =>
      rw [h1] at h
      cases h0 : db0.lookup s with
      | none => rw [h0] at h; simp at h
      | some sc0 =>
          rw [h0] at h
          simp at h
          simp [h]

theorem seedPublicEntity_noFail_empty (db : DB) (t : String) (ht : t ∈ seedTables)
    (h : countRows db "public" t = some 0) :
    seedPublicEntity noFail db t = .ok (insertRowsN "public" t (seedCount t) db) := by
  simp only [seedTables, List.mem_cons, List.not_mem_nil, or_false] at ht
  rcases ht with rfl | rfl | rfl | rfl
  · unfold seedPublicEntity create_initial_header
    rw [h]
    simp [noFail, seedCount]
  · unfold seedPublicEntity create_initial_contact
    rw [h]
    simp [noFail, seedCount]
  · unfold seedPublicEntity create_initial_company
    rw [h]
    simp [noFail, seedCount]
  · unfold seedPublicEntity create_initial_carrousels
    rw [h]
    simp [noFail, seedCount]

theorem seedPublicEntity_noFail_nonempty (db : DB) (t : String) (ht : t ∈ seedTables)
    {k : Nat} (h : countRows db "public" t = some k) (hk : ¬ k = 0) :
    seedPublicEntity noFail db t = .ok db := by
  simp only [seedTables, List.mem_cons, List.not_mem_nil, or_false] at ht
  rcases ht with rfl | rfl | rfl | rfl
  · unfold seedPublicEntity create_initial_header
    rw [h]
    simp [hk]
  · unfold seedPublicEntity create_initial_contact
    rw [h]
    simp [hk]
  · unfold seedPublicEntity create_initial_company
    rw [h]
    simp [hk]
  · unfold seedPublicEntity create_initial_carrousels
    rw [h]
    simp [hk]

theorem schemaExists_copyRows (db : DB) (c t : String) (s' : String) :
    schemaExists (copyRows db c t) s' = schemaExists db s' := by
  unfold copyRows
  cases getTable db "public" t with
  | none => rfl
  | some pt => exact schemaExists_modifyTable db c t _ s'

theorem schemaExists_update_tenant_sequences (db : DB) (c t : String) (s' : String) :
    schemaExists (update_tenant_sequences db c t) s' = schemaExists db s' := by
  unfold update_tenant_sequences
  cases hg : getTable db c t with
  | none => rfl
  | some tb =>
      cases hd : tb.idDefault with
      | noDefault => simp [hd]
      | nextvalPublic q => simp [hd, schemaExists_setSeq]
      | nextvalTenant sch q => simp [hd, schemaExists_setSeq]

theorem schemaExists_createTableLike (db : DB) (c t : String) (b : Bool) (s' : String) :
    schemaExists (createTableLike db c t b) s' = schemaExists db s' := by
  unfold createTableLike
  cases getTable db "public" t with
  | none => rfl
  | some pt =>
      cases getTable db c t with
      | some tb => rfl
      | none => exact schemaExists_setTable db c t _ s'

theorem getTable_createTableLike_ne_table (db : DB) (c : String) {t t' : String} (b : Bool)
    (h : t' ≠ t) : getTable (createTableLike db c t b) c t' = getTable db c t' := by
  unfold createTableLike
  cases getTable db "public" t with
  | none => rfl
  | some pt =>
      cases getTable db c t with
      | some tb => rfl
      | none => exact getTable_setTable_ne_table db c _ h

theorem getTable_copyRows_ne_table (db : DB) (c : String) {t t' : String}
    (h : t' ≠ t) : getTable (copyRows db c t) c t' = getTable db c t' := by
  unfold copyRows
  cases getTable db "public" t with
  | none => rfl
  | some pt => exact getTable_modifyTable_ne_table db c _ h

theorem seedCount_pos {t : String} (ht : t ∈ seedTables) : 0 < seedCount t := by
  simp only [seedTables, List.mem_cons, List.not_mem_nil, or_false] at ht
  rcases ht with rfl | rfl | rfl | rfl <;> decide

/-- If the tenant side gives the seeding step nothing to do, the tail leaves
the state untouched. -/
theorem tenantSeedTail_eq_self (c t : String) (db1 : DB)
    (h : schemaExists db1 c = false
      ∨ ∃ tt, getTable db1 c t = some tt
          ∧ (0 < tt.rows.length ∨ (countRows db1 "public" t).getD 0 = 0)) :
    tenantSeedTail c t db1 = db1 := by
  unfold tenantSeedTail
  rcases h with hns | ⟨tt, htt, hcase⟩
  · have hnone : getTable db1 c t = none := getTable_none_of_no_schema t hns
    simp only [hnone, Option.isSome_none, Bool.false_eq_true, if_false,
      createTableLike_no_schema t true hns, (countRows_none_iff db1 c t).mpr hnone]
  · simp only [htt, Option.isSome_some, if_true, countRows_of_getTable htt]
    rcases hcase with hpos | hzero
    · simp [hpos]
    · by_cases htc : tt.rows.length > 0
      · simp [htc]
      · simp [htc, hzero]

/-- After the tail runs on a state whose template table either has rows or
is empty with no id default, the seeding step has become a no-op. -/
theorem tenantSeedTail_noop (c t : String) (db1 : DB) (pt1 : Table)
    (hpub1 : getTable db1 "public" t = some pt1)
    (hcase : 0 < pt1.rows.length
      ∨ (pt1.rows.length = 0 ∧ pt1.idDefault = ColDefault.noDefault)) :
    stepNoop c t (tenantSeedTail c t db1) := by
  unfold tenantSeedTail
  have hpc : (countRows db1 "public" t).getD 0 = pt1.rows.length := by
    rw [countRows_of_getTable hpub1]
    rfl
  by_cases hex : (getTable db1 c t).isSome = true
  · obtain ⟨tt, htt⟩ := Option.isSome_iff_exists.mp hex
    simp only [htt, Option.isSome_some, if_true, countRows_of_getTable htt]
    by_cases htc : tt.rows.length > 0
    · simp only [htc, if_true]
      rcases hcase with hpos | ⟨hlen0, hnd⟩
      · exact Or.inr (Or.inl ⟨pt1, hpub1, hpos, Or.inr ⟨tt, htt, htc⟩⟩)
      · exact Or.inr (Or.inr ⟨pt1, hpub1, hlen0, hnd, Or.inr (by simp [htt])⟩)
    · have httnil : tt.rows = [] := by
        simpa using List.length_eq_zero.mp (Nat.eq_zero_of_not_pos htc)
      simp only [htc, if_false, hpc]
      rcases hcase with hpos | ⟨hlen0, hnd⟩
      · simp only [hpos, if_pos]
        have hcp : ¬ c = "public" := by
          intro hc
          subst hc
          rw [hpub1] at htt
          have hpt : pt1 = tt := by injection htt
          rw [← hpt] at htc
          exact htc hpos
        have hcopy : getTable (copyRows db1 c t) c t
            = some ⟨tt.rows ++ pt1.rows, tt.idDefault, tt.hasConstraints, tt.hasIndexes⟩ := by
          unfold copyRows
          rw [hpub1]
          exact getTable_modifyTable_self db1 c t _ htt
        have hres1 : getTable (update_tenant_sequences (copyRows db1 c t) c t) c t
            = some ⟨tt.rows ++ pt1.rows, tt.idDefault, tt.hasConstraints, tt.hasIndexes⟩ := by
          rw [getTable_update_tenant_sequences]
          exact hcopy
        have hres2 : getTable (update_tenant_sequences (copyRows db1 c t) c t) "public" t
            = some pt1 := by
          rw [getTable_update_tenant_sequences, getTable_copyRows_pub _ _ _ hcp]
          exact hpub1
        refine Or.inr (Or.inl ⟨pt1, hres2, hpos, Or.inr
          ⟨_, hres1, ?_⟩⟩)
        simp [httnil, hpos]
      · have : ¬ pt1.rows.length > 0 := by omega
        simp only [this, if_false]
        exact Or.inr (Or.inr ⟨pt1, hpub1, hlen0, hnd, Or.inr (by simp [htt])⟩)
  · have hnone : getTable db1 c t = none := by
      cases hg : getTable db1 c t with
      | none => rfl
      | some tb => rw [hg] at hex; simp at hex
    simp only [hnone, Option.isSome_none, Bool.false_eq_true, if_false]
    by_cases hs1 : schemaExists db1 c = true
    · have hcp : ¬ c = "public" := by
        intro hc
        subst hc
        rw [hpub1] at hnone
        cases hnone
      have hctl : getTable (createTableLike db1 c t true) c t
          = some ⟨[], pt1.idDefault, pt1.hasConstraints, pt1.hasIndexes⟩ := by
        have := getTable_createTableLike_self true hpub1 hnone hs1
        simpa using this
      have hpub2 : getTable (createTableLike db1 c t true) "public" t = some pt1 :=
        (getTable_createTableLike_pub db1 t t true hcp).trans hpub1
      rw [countRows_of_getTable hctl]
      simp only [List.length_nil, gt_iff_lt, Nat.lt_irrefl, if_false, hpc]
      rcases hcase with hpos | ⟨hlen0, hnd⟩
      · simp only [hpos, if_pos]
        have hcopy : getTable (copyRows (createTableLike db1 c t true) c t) c t
            = some ⟨[] ++ pt1.rows, pt1.idDefault, pt1.hasConstraints, pt1.hasIndexes⟩ := by
          unfold copyRows
          rw [hpub2]
          exact getTable_modifyTable_self _ c t _ hctl
        have hres1 : getTable (update_tenant_sequences
            (copyRows (createTableLike db1 c t true) c t) c t) c t
            = some ⟨[] ++ pt1.rows, pt1.idDefault, pt1.hasConstraints, pt1.hasIndexes⟩ := by
          rw [getTable_update_tenant_sequences]
          exact hcopy
        have hres2 : getTable (update_tenant_sequences
            (copyRows (createTableLike db1 c t true) c t) c t) "public" t = some pt1 := by
          rw [getTable_update_tenant_sequences, getTable_copyRows_pub _ _ _ hcp]
          exact hpub2
        refine Or.inr (Or.inl ⟨pt1, hres2, hpos, Or.inr ⟨_, hres1, ?_⟩⟩)
        simpa using hpos
      · have : ¬ pt1.rows.length > 0 := by omega
        simp only [this, if_false]
        exact Or.inr (Or.inr ⟨pt1, hpub2, hlen0, hnd, Or.inr (by simp [hctl])⟩)
    · have hsf : schemaExists db1 c = false := by
        cases hb : schemaExists db1 c with
        | false => rfl
        | true => exact absurd hb hs1
      rw [createTableLike_no_schema t true hsf, (countRows_none_iff db1 c t).mpr hnone]
      rcases hcase with hpos | ⟨hlen0, hnd⟩
      · exact Or.inr (Or.inl ⟨pt1, hpub1, hpos, Or.inl hsf⟩)
      · exact Or.inr (Or.inr ⟨pt1, hpub1, hlen0, hnd, Or.inl hsf⟩)

/-- Soundness of `stepNoop`: on a state satisfying it, the seeding step for
that table changes nothing. -/
theorem tenantSeedStep_of_stepNoop (c t : String) (db : DB) (ht : t ∈ seedTables)
    (h : stepNoop c t db) : tenantSeedStep noFail c db t = db := by
  rw [tenantSeedStep_eq_tail]
  rcases h with h1 | h2 | h3
  · rw [(countRows_none_iff db "public" t).mpr h1]
  · obtain ⟨pt, hpt, hpos, hrest⟩ := h2
    rw [countRows_of_getTable hpt]
    have hne0 : ¬ pt.rows.length = 0 := by omega
    simp only [hne0, if_false]
    apply tenantSeedTail_eq_self
    rcases hrest with hns | ⟨tt, htt, httpos⟩
    · exact Or.inl hns
    · exact Or.inr ⟨tt, htt, Or.inl httpos⟩
  · obtain ⟨pt, hpt, hlen0, hnd, hrest⟩ := h3
    rw [countRows_of_getTable hpt]
    simp only [hlen0, if_pos]
    rw [seedPublicEntity_noFail_empty db t ht
      (by rw [countRows_of_getTable hpt, hlen0]),
      insertRowsN_noDefault_noop (seedCount t) hpt hnd]
    apply tenantSeedTail_eq_self
    rcases hrest with hns | hsome
    · exact Or.inl hns
    · obtain ⟨tt, htt⟩ := Option.isSome_iff_exists.mp hsome
      refine Or.inr ⟨tt, htt, Or.inr ?_⟩
      rw [countRows_of_getTable hpt]
      simp [hlen0]

/-- Establishment: after the seeding step runs for one of the seed tables,
that table's iteration is a no-op. -/
theorem stepNoop_after_step (c t : String) (db : DB) (ht : t ∈ seedTables) :
    stepNoop c t (tenantSeedStep noFail c db t) := by
  rw [tenantSeedStep_eq_tail]
  cases hcc : countRows db "public" t with
  | none => exact Or.inl ((countRows_none_iff db "public" t).mp hcc)
  | some pc0 =>
      obtain ⟨pt, hpt, hlen⟩ := countRows_eq_some hcc
      by_cases h0 : pc0 = 0
      · subst h0
        rw [seedPublicEntity_noFail_empty db t ht hcc]
        obtain ⟨rs, hg, hlenr, hnilr⟩ := getTable_insertRowsN_pub_self (seedCount t) hpt
        by_cases hnd : pt.idDefault = .noDefault
        · refine tenantSeedTail_noop c t _ _ hg (Or.inr ⟨?_, hnd⟩)
          simp [hnilr hnd, hlen]
        · refine tenantSeedTail_noop c t _ _ hg (Or.inl ?_)
          have hrs : rs.length = seedCount t := hlenr hnd
          have := seedCount_pos ht
          simp [hrs]
          omega
      · simp only [h0, if_false]
        refine tenantSeedTail_noop c t db pt hpt (Or.inl ?_)
        omega

/-- A seeding step for another table does not change the template table of
table `t`. -/
theorem tenantSeedStep_pub_frame_ne (f : Fail) (A : String) (db : DB) {t t' : String}
    (hne : t' ≠ t) :
    getTable (tenantSeedStep f A db t) "public" t' = getTable db "public" t' := by
  rcases tenantSeedStep_cases f A db t with hr | ⟨db1, db2, h1, h2, h3⟩
  · rw [hr]
  · have e1 : getTable db1 "public" t' = getTable db "public" t' := by
      rcases h1 with rfl | ⟨hc0, rfl⟩
      · rfl
      · exact getTable_insertRowsN_pub_ne _ _ hne
    have e2 : getTable db2 "public" t' = getTable db1 "public" t' := by
      rcases h2 with rfl | rfl
      · rfl
      · by_cases hA : A = "public"
        · subst hA
          rw [createTableLike_public_self]
        · exact getTable_createTableLike_pub db1 t t' true hA
    have e3 : ∀ dbx : DB, getTable dbx "public" t' = getTable db2 "public" t' →
        getTable (update_tenant_sequences (copyRows dbx A t) A t) "public" t'
          = getTable db2 "public" t' := by
      intro dbx he
      rw [getTable_update_tenant_sequences]
      by_cases hA : A = "public"
      · subst hA
        rw [getTable_copyRows_ne_table _ _ hne, he]
      · rw [getTable_copyRows_pub _ _ _ hA, he]
    rcases h3 with h3 | h3 <;> rw [h3]
    · rw [e2, e1]
    · rw [e3 db2 rfl, e2, e1]

/-- A seeding step for another table does not change the tenant's table `t`. -/
theorem tenantSeedStep_own_frame_ne (f : Fail) (c : String) (db : DB) {t t' : String}
    (hne : t' ≠ t) :
    getTable (tenantSeedStep f c db t) c t' = getTable db c t' := by
  rcases tenantSeedStep_cases f c db t with hr | ⟨db1, db2, h1, h2, h3⟩
  · rw [hr]
  · have e1 : getTable db1 c t' = getTable db c t' := by
      rcases h1 with rfl | ⟨hc0, rfl⟩
      · rfl
      · by_cases hc : c = "public"
        · subst hc
          exact getTable_insertRowsN_pub_ne _ _ hne
        · exact getTable_of_tablesOf (tablesOf_insertRowsN_ne _ _ _ _ hc) t'
    have e2 : getTable db2 c t' = getTable db1 c t' := by
      rcases h2 with rfl | rfl
      · rfl
      · exact getTable_createTableLike_ne_table db1 c true hne
    rcases h3 with h3 | h3 <;> rw [h3]
    · rw [e2, e1]
    · rw [getTable_update_tenant_sequences, getTable_copyRows_ne_table _ _ hne, e2, e1]

/-- A seeding step never creates or removes schemas. -/
theorem schemaExists_tenantSeedStep (f : Fail) (A : String) (db : DB) (t : String)
    (s' : String) :
    schemaExists (tenantSeedStep f A db t) s' = schemaExists db s' := by
  rcases tenantSeedStep_cases f A db t with hr | ⟨db1, db2, h1, h2, h3⟩
  · rw [hr]
  · have e1 : schemaExists db1 s' = schemaExists db s' := by
      rcases h1 with rfl | ⟨hc0, rfl⟩
      · rfl
      · exact schemaExists_insertRowsN _ _ _ _ _
    have e2 : schemaExists db2 s' = schemaExists db1 s' := by
      rcases h2 with rfl | rfl
      · rfl
      · exact schemaExists_createTableLike _ _ _ _ _
    rcases h3 with h3 | h3 <;> rw [h3]
    · rw [e2, e1]
    · rw [schemaExists_update_tenant_sequences, schemaExists_copyRows, e2, e1]

/-- `stepNoop` only looks at the template table, the tenant table, and the
tenant schema's existence. -/
theorem stepNoop_congr {c t : String} {db0 db1 : DB}
    (h1 : getTable db1 "public" t = getTable db0 "public" t)
    (h2 : getTable db1 c t = getTable db0 c t)
    (h3 : schemaExists db1 c = schemaExists db0 c) :
    stepNoop c t db0 → stepNoop c t db1 := by
  unfold stepNoop
  rw [h1, h2, h3]
  exact id

/-- A seeding step for a different table preserves `stepNoop`. -/
theorem stepNoop_preserved (f : Fail) (c : String) (db : DB) {t t' : String}
    (hne : t ≠ t') (h : stepNoop c t db) :
    stepNoop c t (tenantSeedStep f c db t') :=
  stepNoop_congr (tenantSeedStep_pub_frame_ne f c db hne)
    (tenantSeedStep_own_frame_ne f c db hne)
    (schemaExists_tenantSeedStep f c db t' c) h

/-! ## Fold-level lemmas and table-name stability -/

/-- After the four-table seed fold, every seed-table iteration is a no-op. -/
theorem stepNoop_after_fold (c : String) (db : DB) :
    ∀ t ∈ seedTables, stepNoop c t (seedTables.foldl (tenantSeedStep noFail c) db) := by
  intro t ht
  simp only [seedTables, List.foldl_cons, List.foldl_nil]
  simp only [seedTables, List.mem_cons, List.not_mem_nil, or_false] at ht
  rcases ht with rfl | rfl | rfl | rfl
  · exact stepNoop_preserved _ _ _ (by decide) (stepNoop_preserved _ _ _ (by decide)
      (stepNoop_preserved _ _ _ (by decide) (stepNoop_after_step c _ db (by decide))))
  · exact stepNoop_preserved _ _ _ (by decide) (stepNoop_preserved _ _ _ (by decide)
      (stepNoop_after_step c _ _ (by decide)))
  · exact stepNoop_preserved _ _ _ (by decide) (stepNoop_after_step c _ _ (by decide))
  · exact stepNoop_after_step c _ _ (by decide)

/-- The seed fold is the identity on a state where every iteration is a
no-op. -/
theorem seedFold_eq_self_of_noop (c : String) (db : DB)
    (h : ∀ t ∈ seedTables, stepNoop c t db) :
    seedTables.foldl (tenantSeedStep noFail c) db = db := by
  simp only [seedTables, List.foldl_cons, List.foldl_nil]
  rw [tenantSeedStep_of_stepNoop c "header" db (by decide) (h _ (by decide)),
    tenantSeedStep_of_stepNoop c "contact" db (by decide) (h _ (by decide)),
    tenantSeedStep_of_stepNoop c "company" db (by decide) (h _ (by decide)),
    tenantSeedStep_of_stepNoop c "carrousel" db (by decide) (h _ (by decide))]

theorem schemaKeys_modifySchema_ne (db : DB) {s s' : String} (f : Schema → Schema)
    (h : s' ≠ s) : schemaKeys (modifySchema db s f) s' = schemaKeys db s' := by
  unfold schemaKeys
  rw [lookup_modifySchema_ne db f h]

theorem schemaKeys_modifyTable (db : DB) (s t : String) (f : Table → Table)
    (s' : String) : schemaKeys (modifyTable db s t f) s' = schemaKeys db s' := by
  by_cases h : s' = s
  · subst h
    unfold modifyTable schemaKeys
    rw [lookup_modifySchema_self]
    cases hl : db.lookup s' with
    | none => simp [hl]
    | some sc =>
        cases ht : sc.tables.lookup t with
        | none => simp [ht]
        | some tb =>
            simp only [ht, Option.map_some', Option.getD_some]
            exact keys_setEntry_of_lookup_isSome t (f tb) sc.tables (by simp [ht])
  · exact schemaKeys_modifySchema_ne db _ h

theorem schemaKeys_setSeq (db : DB) (s q : String) (v : Nat) (s' : String) :
    schemaKeys (setSeq db s q v) s' = schemaKeys db s' := by
  by_cases h : s' = s
  · subst h
    unfold setSeq schemaKeys
    rw [lookup_modifySchema_self]
    cases db.lookup s' <;> simp
  · exact schemaKeys_modifySchema_ne db _ h

theorem schemaKeys_createSeqIfNotExists (db : DB) (s q : String) (s' : String) :
    schemaKeys (createSeqIfNotExists db s q) s' = schemaKeys db s' := by
  unfold createSeqIfNotExists
  by_cases h : (getSeq db s q).isSome <;> simp [h, schemaKeys_setSeq]

theorem schemaKeys_setTable_ne (db : DB) {s s' : String} (t : String) (tb : Table)
    (h : s' ≠ s) : schemaKeys (setTable db s t tb) s' = schemaKeys db s' :=
  schemaKeys_modifySchema_ne db _ h

theorem schemaKeys_insertRowDefault (db : DB) (s t : String) (s' : String) :
    schemaKeys (insertRowDefault db s t) s' = schemaKeys db s' := by
  unfold insertRowDefault
  cases hg : getTable db s t with
  | none => rfl
  | some tb =>
      cases hd : tb.idDefault with
      | noDefault => simp [hd, nextvalFor]
      | nextvalPublic q => simp [hd, nextvalFor, schemaKeys_modifyTable, schemaKeys_setSeq]
      | nextvalTenant sch q =>
          simp [hd, nextvalFor, schemaKeys_modifyTable, schemaKeys_setSeq]

theorem schemaKeys_insertRowsN (s t : String) (n : Nat) (db : DB) (s' : String) :
    schemaKeys (insertRowsN s t n db) s' = schemaKeys db s' := by
  induction n with
  | zero => rfl
  | succ m ih => rw [insertRowsN, schemaKeys_insertRowDefault, ih]

theorem schemaKeys_copyRows (db : DB) (c t : String) (s' : String) :
    schemaKeys (copyRows db c t) s' = schemaKeys db s' := by
  unfold copyRows
  cases getTable db "public" t with
  | none => rfl
  | some pt => exact schemaKeys_modifyTable db c t _ s'

theorem schemaKeys_update_tenant_sequences (db : DB) (c t : String) (s' : String) :
    schemaKeys (update_tenant_sequences db c t) s' = schemaKeys db s' := by
  unfold update_tenant_sequences
  cases hg : getTable db c t with
  | none => rfl
  | some tb =>
      cases hd : tb.idDefault with
      | noDefault => simp [hd]
      | nextvalPublic q => simp [hd, schemaKeys_setSeq]
      | nextvalTenant sch q => simp [hd, schemaKeys_setSeq]

theorem schemaKeys_pub_createTableLike (db : DB) (A t : String) (b : Bool) :
    schemaKeys (createTableLike db A t b) "public" = schemaKeys db "public" := by
  by_cases hA : A = "public"
  · subst hA
    rw [createTableLike_public_self]
  · unfold createTableLike
    cases getTable db "public" t with
    | none => rfl
    | some pt =>
        cases getTable db A t with
        | some tb => rfl
        | none => exact schemaKeys_setTable_ne db _ _ fun hp => hA hp.symm

theorem schemaKeys_pub_tenantSeedStep (f : Fail) (A : String) (db : DB) (t : String) :
    schemaKeys (tenantSeedStep f A db t) "public" = schemaKeys db "public" := by
  rcases tenantSeedStep_cases f A db t with hr | ⟨db1, db2, h1, h2, h3⟩
  · rw [hr]
  · have e1 : schemaKeys db1 "public" = schemaKeys db "public" := by
      rcases h1 with rfl | ⟨hc0, rfl⟩
      · rfl
      · exact schemaKeys_insertRowsN _ _ _ _ _
    have e2 : schemaKeys db2 "public" = schemaKeys db1 "public" := by
      rcases h2 with rfl | rfl
      · rfl
      · exact schemaKeys_pub_createTableLike _ _ _ _
    rcases h3 with h3 | h3 <;> rw [h3]
    · rw [e2, e1]
    · rw [schemaKeys_update_tenant_sequences, schemaKeys_copyRows, e2, e1]

theorem mem_schemaKeys_setTable {db : DB} {s x : String} (t : String) (tb : Table)
    (h : x ∈ schemaKeys db s) : x ∈ schemaKeys (setTable db s t tb) s := by
  unfold setTable
  unfold schemaKeys at h ⊢
  rw [lookup_modifySchema_self]
  cases hl : db.lookup s with
  | none => rw [hl] at h; simp at h
  | some sc =>
      rw [hl] at h
      simp only [Option.map_some', Option.getD_some] at h
      simp only [Option.map_some', Option.getD_some]
      exact mem_keys_setEntry t tb sc.tables h

theorem mem_schemaKeys_createTableLike {db : DB} {A x : String} (t : String) (b : Bool)
    (h : x ∈ schemaKeys db A) : x ∈ schemaKeys (createTableLike db A t b) A := by
  unfold createTableLike
  cases getTable db "public" t with
  | none => exact h
  | some pt =>
      cases getTable db A t with
      | some tb => exact h
      | none => exact mem_schemaKeys_setTable t _ h

theorem mem_schemaKeys_tenantSeedStep (f : Fail) {A x : String} (db : DB) (t : String)
    (h : x ∈ schemaKeys db A) : x ∈ schemaKeys (tenantSeedStep f A db t) A := by
  rcases tenantSeedStep_cases f A db t with hr | ⟨db1, db2, h1, h2, h3⟩
  · rw [hr]; exact h
  · have e1 : x ∈ schemaKeys db1 A := by
      rcases h1 with rfl | ⟨hc0, rfl⟩
      · exact h
      · rw [schemaKeys_insertRowsN]; exact h
    have e2 : x ∈ schemaKeys db2 A := by
      rcases h2 with rfl | rfl
      · exact e1
      · exact mem_schemaKeys_createTableLike t true e1
    rcases h3 with h3 | h3 <;> rw [h3]
    · exact e2
    · rw [schemaKeys_update_tenant_sequences, schemaKeys_copyRows]; exact e2

theorem get_all_tables_eq (db : DB) :
    get_all_tables_except_user noFail db
      = (schemaKeys db "public").filter fun n => !(excludedTables.contains n) := rfl

theorem tenantTableNames_eq_schemaKeys (db : DB) (c : String) :
    tenantTableNames db c = schemaKeys db c := rfl

theorem getTable_isSome_iff_mem_schemaKeys (db : DB) (s t : String) :
    (getTable db s t).isSome = true ↔ t ∈ schemaKeys db s := by
  unfold getTable schemaKeys
  cases hl : db.lookup s with
  | none => simp
  | some sc =>
      simp only [hl, Option.some_bind, Option.map_some', Option.getD_some]
      exact lookup_isSome_iff_mem_keys t sc.tables

theorem mem_get_all_tables_iff (db : DB) (t : String) :
    t ∈ get_all_tables_except_user noFail db
      ↔ t ∈ schemaKeys db "public" ∧ excludedTables.contains t = false := by
  rw [get_all_tables_eq]
  simp [List.mem_filter]

theorem seedTables_not_excluded {t : String} (ht : t ∈ seedTables) :
    excludedTables.contains t = false := by
  simp only [seedTables, List.mem_cons, List.not_mem_nil, or_false] at ht
  rcases ht with rfl | rfl | rfl | rfl <;> decide

theorem mem_schemaKeys_createTableLike_self {db : DB} {c t : String}
    (hpub : (getTable db "public" t).isSome = true) (hs : schemaExists db c = true)
    (b : Bool) : t ∈ schemaKeys (createTableLike db c t b) c := by
  obtain ⟨pt, hpt⟩ := Option.isSome_iff_exists.mp hpub
  cases hten : getTable db c t with
  | some tb =>
      rw [createTableLike_of_isSome (by simp [hten]) b]
      exact (getTable_isSome_iff_mem_schemaKeys db c t).mp (by simp [hten])
  | none =>
      unfold createTableLike
      rw [hpt, hten]
      unfold setTable modifySchema schemaKeys
      unfold schemaExists at hs
      obtain ⟨sc, hsc⟩ := Option.isSome_iff_exists.mp hs
      simp only [hsc, lookup_setEntry_self, Option.map_some', Option.getD_some]
      exact mem_keys_setEntry_self t _ sc.tables

theorem schemaExists_create_tenant_sequences (db : DB) (c t : String) (s' : String) :
    schemaExists (create_tenant_sequences db c t) s' = schemaExists db s' := by
  unfold create_tenant_sequences
  cases hg : getTable db "public" t with
  | none => rfl
  | some pt =>
      cases hd : pt.idDefault with
      | noDefault => simp [hd]
      | nextvalPublic q =>
          simp [hd, schemaExists_modifyTable, schemaExists_createSeqIfNotExists]
      | nextvalTenant sch q =>
          simp [hd, schemaExists_modifyTable, schemaExists_createSeqIfNotExists]

theorem schemaKeys_create_tenant_sequences (db : DB) (c t : String) (s' : String) :
    schemaKeys (create_tenant_sequences db c t) s' = schemaKeys db s' := by
  unfold create_tenant_sequences
  cases hg : getTable db "public" t with
  | none => rfl
  | some pt =>
      cases hd : pt.idDefault with
      | noDefault => simp [hd]
      | nextvalPublic q =>
          simp [hd, schemaKeys_modifyTable, schemaKeys_createSeqIfNotExists]
      | nextvalTenant sch q =>
          simp [hd, schemaKeys_modifyTable, schemaKeys_createSeqIfNotExists]

/-- Behaviour of the reconciler's missing-table fold: it keeps schemas and
template keys intact, keeps existing tenant tables, and creates a tenant
table for every listed name whose template table exists. -/
theorem reconcileFold_props (c : String) (l : List String) : ∀ db : DB,
    schemaExists (l.foldl (reconcileTableStep c) db) c = schemaExists db c
    ∧ schemaKeys (l.foldl (reconcileTableStep c) db) "public" = schemaKeys db "public"
    ∧ (∀ x, x ∈ schemaKeys db c → x ∈ schemaKeys (l.foldl (reconcileTableStep c) db) c)
    ∧ (schemaExists db c = true → ∀ t ∈ l, t ∈ schemaKeys db "public" →
        t ∈ schemaKeys (l.foldl (reconcileTableStep c) db) c) := by
  induction l with
  | nil => intro db; exact ⟨rfl, rfl, fun x h => h, fun _ t ht => absurd ht (by simp)⟩
  | cons a l ih =>
      intro db
      have hstep := ih (reconcileTableStep c db a)
      have e1 : schemaExists (reconcileTableStep c db a) c = schemaExists db c :=
        schemaExists_createTableLike db c a true c
      have e2 : schemaKeys (reconcileTableStep c db a) "public" = schemaKeys db "public" :=
        schemaKeys_pub_createTableLike db c a true
      refine ⟨?_, ?_, ?_, ?_⟩
      · rw [List.foldl_cons, hstep.1, e1]
      · rw [List.foldl_cons, hstep.2.1, e2]
      · intro x hx
        rw [List.foldl_cons]
        exact hstep.2.2.1 x (mem_schemaKeys_createTableLike a true hx)
      · intro hs t ht hpt
        rw [List.foldl_cons]
        rcases List.mem_cons.mp ht with rfl | htl
        · exact hstep.2.2.1 t (mem_schemaKeys_createTableLike_self
            ((getTable_isSome_iff_mem_schemaKeys db "public" t).mpr hpt) hs true)
        · exact hstep.2.2.2 (by rw [e1]; exact hs) t htl (by rw [e2]; exact hpt)

/-- Behaviour of the provisioner's table fold: the same properties hold. -/
theorem provisionFold_props (c : String) (l : List String) : ∀ db : DB,
    schemaExists (l.foldl (provisionTableStep c) db) c = schemaExists db c
    ∧ schemaKeys (l.foldl (provisionTableStep c) db) "public" = schemaKeys db "public"
    ∧ (∀ x, x ∈ schemaKeys db c → x ∈ schemaKeys (l.foldl (provisionTableStep c) db) c)
    ∧ (schemaExists db c = true → ∀ t ∈ l, t ∈ schemaKeys db "public" →
        t ∈ schemaKeys (l.foldl (provisionTableStep c) db) c) := by
  induction l with
  | nil => intro db; exact ⟨rfl, rfl, fun x h => h, fun _ t ht => absurd ht (by simp)⟩
  | cons a l ih =>
      intro db
      have hstep := ih (provisionTableStep c db a)
      have e1 : schemaExists (provisionTableStep c db a) c = schemaExists db c := by
        unfold provisionTableStep
        rw [schemaExists_create_tenant_sequences, schemaExists_createTableLike]
      have e2 : schemaKeys (provisionTableStep c db a) "public"
          = schemaKeys db "public" := by
        unfold provisionTableStep
        rw [schemaKeys_create_tenant_sequences, schemaKeys_pub_createTableLike]
      have egrow : ∀ x, x ∈ schemaKeys db c → x ∈ schemaKeys (provisionTableStep c db a) c := by
        intro x hx
        unfold provisionTableStep
        rw [schemaKeys_create_tenant_sequences]
        exact mem_schemaKeys_createTableLike a false hx
      refine ⟨?_, ?_, ?_, ?_⟩
      · rw [List.foldl_cons, hstep.1, e1]
      · rw [List.foldl_cons, hstep.2.1, e2]
      · intro x hx
        rw [List.foldl_cons]
        exact hstep.2.2.1 x (egrow x hx)
      · intro hs t ht hpt
        rw [List.foldl_cons]
        rcases List.mem_cons.mp ht with rfl | htl
        · refine hstep.2.2.1 t ?_
          unfold provisionTableStep
          rw [schemaKeys_create_tenant_sequences]
          exact mem_schemaKeys_createTableLike_self
            ((getTable_isSome_iff_mem_schemaKeys db "public" t).mpr hpt) hs false
        · exact hstep.2.2.2 (by rw [e1]; exact hs) t htl (by rw [e2]; exact hpt)

/-- On a provisioned tenant the migration path changes nothing and reports
success. -/
theorem migrateCore_noop (c : String) (db : DB) (hv : validate_schema_name c = true)
    (hinv : provisionedInv c db) : migrateCore noFail c db = .ok db := by
  have hmiss : (get_all_tables_except_user noFail db).filter
      (fun t => !((tenantTableNames db c).contains t)) = [] := by
    rw [List.filter_eq_nil_iff]
    intro t htl
    have hmem := hinv.2.1 t htl
    simp [hmem]
  unfold migrateCore
  simp only [hmiss, List.isEmpty_nil, if_true]
  unfold create_tenant_initial_data
  simp only [hv, Bool.not_true, Bool.false_eq_true, if_false]
  rw [seedFold_eq_self_of_noop c db hinv.2.2]

/-- Running the seed fold over a state whose schema exists and whose
template tables all have tenant counterparts yields a provisioned state. -/
theorem provisionedInv_of_seedFold (c : String) (d : DB)
    (hex : schemaExists d c = true)
    (hcov : ∀ t ∈ get_all_tables_except_user noFail d, t ∈ tenantTableNames d c) :
    provisionedInv c (seedTables.foldl (tenantSeedStep noFail c) d) := by
  refine ⟨?_, ?_, stepNoop_after_fold c d⟩
  · simp only [seedTables, List.foldl_cons, List.foldl_nil]
    rw [schemaExists_tenantSeedStep, schemaExists_tenantSeedStep,
      schemaExists_tenantSeedStep, schemaExists_tenantSeedStep]
    exact hex
  · intro t htl
    have hpubkeys : schemaKeys (seedTables.foldl (tenantSeedStep noFail c) d) "public"
        = schemaKeys d "public" := by
      simp only [seedTables, List.foldl_cons, List.foldl_nil]
      rw [schemaKeys_pub_tenantSeedStep, schemaKeys_pub_tenantSeedStep,
        schemaKeys_pub_tenantSeedStep, schemaKeys_pub_tenantSeedStep]
    have htl' : t ∈ get_all_tables_except_user noFail d := by
      rw [mem_get_all_tables_iff] at htl ⊢
      rw [hpubkeys] at htl
      exact htl
    have hmem := hcov t htl'
    rw [tenantTableNames_eq_schemaKeys] at hmem ⊢
    simp only [seedTables, List.foldl_cons, List.foldl_nil]
    exact mem_schemaKeys_tenantSeedStep _ _ _
      (mem_schemaKeys_tenantSeedStep _ _ _
        (mem_schemaKeys_tenantSeedStep _ _ _
          (mem_schemaKeys_tenantSeedStep _ _ _ hmem)))

/-- The migration body establishes the provisioned invariant. -/
theorem migrateCore_establishes (c : String) (db s1 : DB)
    (hv : validate_schema_name c = true) (hex : schemaExists db c = true)
    (h : migrateCore noFail c db = .ok s1) : provisionedInv c s1 := by
  unfold migrateCore at h
  by_cases hm : (List.filter (fun t => !(tenantTableNames db c).contains t)
      (get_all_tables_except_user noFail db)).isEmpty = true
  · simp only [hm, if_true] at h
    unfold create_tenant_initial_data at h
    simp only [hv, Bool.not_true, Bool.false_eq_true, if_false, Except.ok.injEq] at h
    rw [← h]
    refine provisionedInv_of_seedFold c db hex ?_
    intro t htl
    have hnil := List.isEmpty_iff.mp hm
    have := List.filter_eq_nil_iff.mp hnil t htl
    simp at this
    exact this
  · simp only [hm, if_false] at h
    unfold create_tenant_initial_data at h
    simp only [hv, Bool.not_true, Bool.false_eq_true, if_false, Except.ok.injEq] at h
    rw [← h]
    have props := reconcileFold_props c
      (List.filter (fun t => !(tenantTableNames db c).contains t)
        (get_all_tables_except_user noFail db)) db
    refine provisionedInv_of_seedFold c _ (by rw [props.1]; exact hex) ?_
    intro t htm
    rw [mem_get_all_tables_iff] at htm
    obtain ⟨hkM, hexcl⟩ := htm
    rw [props.2.1] at hkM
    rw [tenantTableNames_eq_schemaKeys]
    by_cases hin : t ∈ schemaKeys db c
    · exact props.2.2.1 t hin
    · refine props.2.2.2 hex t ?_ hkM
      rw [List.mem_filter]
      refine ⟨(mem_get_all_tables_iff db t).mpr ⟨hkM, hexcl⟩, ?_⟩
      rw [tenantTableNames_eq_schemaKeys]
      simp [hin]

/-- Every successful provisioning leaves the tenant provisioned (and implies
the name was valid). -/
theorem create_tenant_schema_establishes (c : String) (db s1 : DB)
    (h : create_tenant_schema noFail c db = .ok s1) :
    validate_schema_name c = true ∧ provisionedInv c s1 := by
  have hv : validate_schema_name c = true := by
    cases hb : validate_schema_name c with
    | true => rfl
    | false =>
        unfold create_tenant_schema at h
        rw [hb] at h
        simp at h
  refine ⟨hv, ?_⟩
  unfold create_tenant_schema at h
  simp only [hv, Bool.not_true, Bool.false_eq_true, if_false] at h
  by_cases hex : schemaExists db c = true
  · rw [if_pos hex] at h
    exact migrateCore_establishes c db s1 hv hex h
  · have hexf : schemaExists db c = false := by
      cases hb : schemaExists db c with
      | false => rfl
      | true => exact absurd hb hex
    simp only [hexf, Bool.false_eq_true, if_false] at h
    have hdb1 : createSchemaIfNotExists db c = setEntry c ⟨[], []⟩ db := by
      unfold createSchemaIfNotExists
      rw [hexf]
      simp
    rw [hdb1] at h
    have hex1 : schemaExists (setEntry c ⟨[], []⟩ db) c = true := by
      unfold schemaExists
      rw [lookup_setEntry_self]
      rfl
    have hkeys1 : ∀ s', schemaKeys (setEntry c ⟨[], []⟩ db) s' = schemaKeys db s' := by
      intro s'
      by_cases hs : s' = c
      · subst hs
        unfold schemaKeys
        rw [lookup_setEntry_self]
        unfold schemaExists at hexf
        cases hl : db.lookup s' with
        | none => simp
        | some sc => rw [hl] at hexf; simp at hexf
      · unfold schemaKeys
        rw [lookup_setEntry_ne _ _ hs]
    by_cases hT : (get_all_tables_except_user noFail (setEntry c ⟨[], []⟩ db)).isEmpty = true
    · simp only [hT, if_true, Except.ok.injEq] at h
      rw [← h]
      refine ⟨hex1, ?_, ?_⟩
      · intro t htl
        rw [List.isEmpty_iff.mp hT] at htl
        cases htl
      · intro t ht
        left
        cases hg : getTable (setEntry c ⟨[], []⟩ db) "public" t with
        | none => rfl
        | some pt =>
            exfalso
            have hmem : t ∈ get_all_tables_except_user noFail (setEntry c ⟨[], []⟩ db) :=
              (mem_get_all_tables_iff _ t).mpr
                ⟨(getTable_isSome_iff_mem_schemaKeys _ "public" t).mp (by simp [hg]),
                 seedTables_not_excluded ht⟩
            rw [List.isEmpty_iff.mp hT] at hmem
            cases hmem
    · simp only [hT, if_false] at h
      unfold create_tenant_initial_data at h
      simp only [hv, Bool.not_true, Bool.false_eq_true, if_false, Except.ok.injEq] at h
      rw [← h]
      have props := provisionFold_props c
        (get_all_tables_except_user noFail (setEntry c ⟨[], []⟩ db))
        (setEntry c ⟨[], []⟩ db)
      refine provisionedInv_of_seedFold c _ (by rw [props.1]; exact hex1) ?_
      intro t htp
      rw [mem_get_all_tables_iff] at htp
      obtain ⟨hkP, hexcl⟩ := htp
      rw [props.2.1] at hkP
      rw [tenantTableNames_eq_schemaKeys]
      exact props.2.2.2 hex1 t ((mem_get_all_tables_iff _ t).mpr ⟨hkP, hexcl⟩) hkP

/-- **C3.** Provisioning is idempotent: a second `create_tenant_schema` for
the same tenant, run on the state the first call produced, succeeds and
returns that state unchanged — same table set, same seed-row counts, and
nothing dropped, truncated, or overwritten. -/
theorem create_tenant_schema_idempotent (c : String) (db s1 : DB)
    (h : create_tenant_schema noFail c db = .ok s1) :
    create_tenant_schema noFail c s1 = .ok s1 := by
  obtain ⟨hv, hinv⟩ := create_tenant_schema_establishes c db s1 h
  unfold create_tenant_schema
  simp only [hv, Bool.not_true, Bool.false_eq_true, if_false, hinv.1, if_true]
  exact migrateCore_noop c s1 hv hinv

/-- Witness for `create_tenant_schema_idempotent`: provisioning `acme` over
`dbHeader` yields `dbProvisioned`, and the second call returns it
unchanged. -/
theorem create_tenant_schema_idempotent_witness :
    create_tenant_schema noFail "acme" dbProvisioned = .ok dbProvisioned :=
  create_tenant_schema_idempotent "acme" dbHeader dbProvisioned (by decide)
